import Mathlib

/-!
Verification of the ReDyne static-analysis core against its specification.

The definitions below are a shallow embedding of the C sources:
* `src/ReDyne/Models/DisassemblyEngine.c` (AArch64 and x86-64 decoders,
  prologue/epilogue heuristics),
* `src/ReDyne/Models/ClassDumpC.c` (ObjC runtime-surface scanner),
* `src/ReDyne/Models/TypeAnalyzerC.c` (type reconstruction).

Machine integers are modelled as `Nat`/`Int` with explicit wrapping where the
C arithmetic wraps (`u64` below).  C strings are modelled as `String` or
`List Char`; byte buffers as `List Char` (the scanners) or `Nat → Nat` byte
streams (the x86-64 decoder, whose input is an unbounded `uint8_t*`, each read
taken modulo 256 to reflect the `uint8_t` type).
-/

namespace ReDyne

/-- Wrap an integer to `uint64_t`, as C unsigned arithmetic does. -/
def u64 (x : Int) : Nat := (x % (2 ^ 64 : Int)).toNat

/-- Sign extension of a `bits`-wide field, as done in the C source by
or-ing the top bits into a signed integer (`imm26 |= 0xFC000000` etc.). -/
def sext (v : Nat) (bits : Nat) : Int :=
  if v.testBit (bits - 1) then (v : Int) - (2 : Int) ^ bits else (v : Int)

/-- Lowercase hex digits of a number, the `%llx`/`%x` printf conversions. -/
def hexLower (n : Nat) : String := String.mk (Nat.toDigits 16 n)

/-- Uppercase hex digits, the `%X` printf conversion. -/
def hexUpper (n : Nat) : String := String.mk ((Nat.toDigits 16 n).map Char.toUpper)

/-- Uppercase hex padded to 8 digits, the `%08X` printf conversion. -/
def hexUpper8 (n : Nat) : String :=
  let ds := (Nat.toDigits 16 n).map Char.toUpper
  String.mk (List.replicate (8 - ds.length) '0' ++ ds)

/-- Uppercase hex padded to 2 digits, the `%02X` printf conversion. -/
def hexUpper2 (n : Nat) : String :=
  let ds := (Nat.toDigits 16 n).map Char.toUpper
  String.mk (List.replicate (2 - ds.length) '0' ++ ds)

/-- Decimal rendering of a signed value, the `%d`/`%lld` printf conversions. -/
def intDec (x : Int) : String := toString x

/-- `c = strstr(hay, needle) != NULL`: substring containment as a Bool. -/
def listInfixOf (needle : List Char) : List Char → Bool
  | [] => needle.isEmpty
  | c :: cs => needle.isPrefixOf (c :: cs) || listInfixOf needle cs

/-- `strstr(hay, needle) != NULL` on the model strings. -/
def strstrB (hay needle : String) : Bool := listInfixOf needle.toList hay.toList

/-- `InstructionCategory` from DisassemblyEngine.h (names as in the source). -/
inductive InstructionCategory where
  | INST_CATEGORY_DATA_PROCESSING
  | INST_CATEGORY_LOAD_STORE
  | INST_CATEGORY_BRANCH
  | INST_CATEGORY_SYSTEM
  | INST_CATEGORY_SIMD
  | INST_CATEGORY_UNKNOWN
deriving DecidableEq, Repr

/-- `BranchType` from DisassemblyEngine.h (names as in the source). -/
inductive BranchType where
  | BRANCH_NONE
  | BRANCH_CALL
  | BRANCH_UNCONDITIONAL
  | BRANCH_CONDITIONAL
  | BRANCH_RETURN
deriving DecidableEq, Repr

/-- The `DisassembledInstruction` record.  The header is not part of `src/`;
fields are taken from the uses in DisassemblyEngine.c.  `memset(inst, 0, ...)`
zeroes every field; the zero value of `category` is only ever surfaced by the
x86-64 `.byte` fallback paths (no claim concerns it) and is modelled as
`INST_CATEGORY_UNKNOWN`, and the zero `branch_type` as `BRANCH_NONE`. -/
structure DisassembledInstruction where
  address : Nat
  raw_bytes : Nat
  length : Nat
  mnemonic : String
  operands : String
  full_disasm : String
  comment : String
  category : InstructionCategory
  is_valid : Bool
  has_branch : Bool
  has_branch_target : Bool
  branch_target : Nat
  branch_offset : Int
  branch_type : BranchType
  updates_pc : Bool
  regs_read : Nat
  regs_written : Nat
  flags_written : Nat
  is_function_start : Bool
  is_function_end : Bool
deriving DecidableEq, Repr

/-- The record as it stands after the `memset` plus the initial assignments of
`disasm_arm64` (address, raw_bytes, length = 4, is_valid = false). -/
def zeroInst (bytes address : Nat) : DisassembledInstruction where
  address := address
  raw_bytes := bytes
  length := 4
  mnemonic := ""
  operands := ""
  full_disasm := ""
  comment := ""
  category := .INST_CATEGORY_UNKNOWN
  is_valid := false
  has_branch := false
  has_branch_target := false
  branch_target := 0
  branch_offset := 0
  branch_type := .BRANCH_NONE
  updates_pc := false
  regs_read := 0
  regs_written := 0
  flags_written := 0
  is_function_start := false
  is_function_end := false

/-- The X-register name table of `arm64_register_name`. -/
def xRegTable : List String :=
  ["X0", "X1", "X2", "X3", "X4", "X5", "X6", "X7",
   "X8", "X9", "X10", "X11", "X12", "X13", "X14", "X15",
   "X16", "X17", "X18", "X19", "X20", "X21", "X22", "X23",
   "X24", "X25", "X26", "X27", "X28", "X29", "X30", "SP"]

/-- The W-register name table of `arm64_register_name`. -/
def wRegTable : List String :=
  ["W0", "W1", "W2", "W3", "W4", "W5", "W6", "W7",
   "W8", "W9", "W10", "W11", "W12", "W13", "W14", "W15",
   "W16", "W17", "W18", "W19", "W20", "W21", "W22", "W23",
   "W24", "W25", "W26", "W27", "W28", "W29", "W30", "WSP"]

/-- `arm64_register_name` from DisassemblyEngine.c. -/
def arm64_register_name (reg : Nat) (is_64bit : Bool) : String :=
  if reg > 31 then "???"
  else (if is_64bit then xRegTable else wRegTable).getD reg "???"

/-- The condition-name table of `arm64_condition_string`. -/
def condTable : List String :=
  ["EQ", "NE", "CS", "CC", "MI", "PL", "VS", "VC",
   "HI", "LS", "GE", "LT", "GT", "LE", "AL", "NV"]

/-- `arm64_condition_string` from DisassemblyEngine.c. -/
def arm64_condition_string (cond : Nat) : String :=
  if cond < 16 then condTable.getD cond "??" else "??"

/-- The B / BL arm of the `disasm_arm64` cascade (lines 323-344). -/
def arm64_dec_b_bl (bytes address : Nat) : DisassembledInstruction :=
  let z := zeroInst bytes address
  let is_link := (bytes >>> 31) &&& 0x1 = 1
  let offset : Int := sext (bytes &&& 0x3FFFFFF) 26 * 4
  let target := u64 ((address : Int) + offset)
  { z with mnemonic := if is_link then "BL" else "B",
           branch_target := target, branch_offset := offset,
           has_branch_target := true, has_branch := true,
           branch_type := if is_link then .BRANCH_CALL else .BRANCH_UNCONDITIONAL,
           operands := "0x" ++ hexLower target,
           category := .INST_CATEGORY_BRANCH, is_valid := true, updates_pc := true,
           regs_written := if is_link then (1 <<< 30) else 0 }

/-- The ADR / ADRP arm (lines 347-380).  The 21-bit immediate is
sign-extended by or-ing into a uint32, which the C then zero-extends into
int64: modelled verbatim. -/
def arm64_dec_adr (bytes address : Nat) : DisassembledInstruction :=
  let z := zeroInst bytes address
  let is_adrp := bytes &&& 0x80000000 ≠ 0
  let immlo := (bytes >>> 29) &&& 0x3
  let immhi := (bytes >>> 5) &&& 0x7FFFF
  let imm0 := (immhi <<< 2) ||| immlo
  let imm : Nat := if imm0.testBit 20 then imm0 ||| 0xFFF00000 else imm0
  let offset : Int := if is_adrp then (imm : Int) * 4096 else (imm : Int)
  let target : Nat :=
    if is_adrp then u64 (((address &&& 0xFFFFFFFFFFFFF000 : Nat) : Int) + offset)
    else u64 ((address : Int) + offset)
  let rd := bytes &&& 0x1F
  { z with mnemonic := if is_adrp then "ADRP" else "ADR",
           operands := arm64_register_name rd true ++ ", 0x" ++ hexLower target,
           category := .INST_CATEGORY_DATA_PROCESSING, is_valid := true,
           regs_written := 1 <<< rd,
           has_branch := false, has_branch_target := true,
           branch_target := target, branch_offset := offset }

/-- The BR / BLR / RET / BRAA arm (lines 382-411). -/
def arm64_dec_br_group (bytes address : Nat) : DisassembledInstruction :=
  let z := zeroInst bytes address
  let rn := (bytes >>> 5) &&& 0x1F
  let opc := (bytes >>> 21) &&& 0x3
  { z with mnemonic := if opc = 0 then "BR" else if opc = 1 then "BLR"
                       else if opc = 2 then "RET" else "BRAA",
           operands := arm64_register_name rn true,
           has_branch := true,
           branch_type := if opc = 2 then .BRANCH_RETURN
                          else if opc = 1 then .BRANCH_CALL else .BRANCH_UNCONDITIONAL,
           category := .INST_CATEGORY_BRANCH, is_valid := true, updates_pc := true,
           regs_read := 1 <<< rn,
           regs_written := if opc = 1 then (1 <<< 30) else 0,
           is_function_end := opc = 2 }

/-- The LDP / STP arm (lines 413-455). -/
def arm64_dec_ldp_stp (bytes address : Nat) : DisassembledInstruction :=
  let z := zeroInst bytes address
  let is_load := (bytes >>> 22) &&& 0x1 = 1
  let is_64bit := (bytes >>> 31) &&& 0x1 = 1
  let rt := bytes &&& 0x1F
  let rt2 := (bytes >>> 10) &&& 0x1F
  let rn := (bytes >>> 5) &&& 0x1F
  let imm7 : Int := sext ((bytes >>> 15) &&& 0x7F) 7
  let offset : Int := imm7 * (if is_64bit then 8 else 4)
  let idx := (bytes >>> 23) &&& 0x3
  let pre := arm64_register_name rt is_64bit ++ ", " ++
             arm64_register_name rt2 is_64bit ++ ", [" ++
             arm64_register_name rn true
  { z with mnemonic := if is_load then "LDP" else "STP",
           operands := if idx = 0x3 then pre ++ ", #" ++ intDec offset ++ "]!"
                       else if idx = 0x1 then pre ++ "], #" ++ intDec offset
                       else pre ++ ", #" ++ intDec offset ++ "]",
           category := .INST_CATEGORY_LOAD_STORE, is_valid := true,
           regs_written := if is_load then (1 <<< rt) ||| (1 <<< rt2) else 0,
           regs_read := if is_load then (1 <<< rn)
                        else (1 <<< rt) ||| (1 <<< rt2) ||| (1 <<< rn) }

/-- The `(op0 & 0x8) == 0x8` arm (lines 457-507): ADD/SUB immediate and the
MOVZ/MOVN/MOVK family; anything else in this arm stays invalid.  The S-bit
test of the source reads bit 20 of the word. -/
def arm64_dec_addsub_movw (bytes address : Nat) : DisassembledInstruction :=
  let z := zeroInst bytes address
  if (bytes >>> 23) &&& 0x3F = 0x22 ∨ (bytes >>> 23) &&& 0x3F = 0x32 then
    let is_sub := (bytes >>> 30) &&& 0x1 = 1
    let is_64bit := (bytes >>> 31) &&& 0x1 = 1
    let rd := bytes &&& 0x1F
    let rn := (bytes >>> 5) &&& 0x1F
    let imm12 := (bytes >>> 10) &&& 0xFFF
    let shift := (bytes >>> 22) &&& 0x3
    let imm := (imm12 <<< (shift * 12)) &&& 0xFFFFFFFF
    { z with mnemonic := if is_sub then "SUB" else "ADD",
             operands := arm64_register_name rd is_64bit ++ ", " ++
                         arm64_register_name rn is_64bit ++ ", #" ++ toString imm,
             category := .INST_CATEGORY_DATA_PROCESSING, is_valid := true,
             regs_read := 1 <<< rn, regs_written := 1 <<< rd,
             flags_written := if (bytes >>> 20) &&& 0x1 = 1 then 0xF else 0 }
  else if (bytes >>> 23) &&& 0x3F = 0x25 ∨ (bytes >>> 23) &&& 0x3F = 0x05 ∨
          (bytes >>> 23) &&& 0x3F = 0x35 then
    let opc := (bytes >>> 29) &&& 0x3
    let is_64bit := (bytes >>> 31) &&& 0x1 = 1
    let rd := bytes &&& 0x1F
    let imm16 := (bytes >>> 5) &&& 0xFFFF
    { z with mnemonic := if opc = 0x2 then "MOVZ" else if opc = 0x0 then "MOVN"
                         else if opc = 0x3 then "MOVK" else "MOV",
             operands := arm64_register_name rd is_64bit ++ ", #0x" ++ hexUpper imm16,
             category := .INST_CATEGORY_DATA_PROCESSING, is_valid := true,
             regs_read := if opc = 0x3 then (1 <<< rd) else 0,
             regs_written := 1 <<< rd }
  else z

/-- The first `(op0 & 0xE) == 0xA` arm (lines 509-573): B.cond, CBZ/CBNZ,
TBZ/TBNZ (unreachable in the source because the `(op0 & 0x8) == 0x8` arm is
tested first; modelled verbatim). -/
def arm64_dec_condbr_group (bytes address : Nat) : DisassembledInstruction :=
  let z := zeroInst bytes address
  if (bytes >>> 24) &&& 0xFF = 0x54 then
    let cond := bytes &&& 0xF
    let offset : Int := sext ((bytes >>> 5) &&& 0x7FFFF) 19 * 4
    let target := u64 ((address : Int) + offset)
    { z with mnemonic := "B." ++ arm64_condition_string cond,
             branch_target := target, branch_offset := offset,
             has_branch_target := true, has_branch := true,
             branch_type := .BRANCH_CONDITIONAL,
             operands := "0x" ++ hexLower target,
             category := .INST_CATEGORY_BRANCH, is_valid := true, updates_pc := true }
  else if (bytes >>> 24) &&& 0x7F = 0x34 ∨ (bytes >>> 24) &&& 0x7F = 0x35 then
    let is_cbnz := (bytes >>> 24) &&& 0x1 = 1
    let is_64bit := (bytes >>> 31) &&& 0x1 = 1
    let rt := bytes &&& 0x1F
    let offset : Int := sext ((bytes >>> 5) &&& 0x7FFFF) 19 * 4
    let target := u64 ((address : Int) + offset)
    { z with mnemonic := if is_cbnz then "CBNZ" else "CBZ",
             branch_target := target, branch_offset := offset,
             has_branch_target := true, has_branch := true,
             branch_type := .BRANCH_CONDITIONAL,
             operands := arm64_register_name rt is_64bit ++ ", 0x" ++ hexLower target,
             category := .INST_CATEGORY_BRANCH, is_valid := true, updates_pc := true,
             regs_read := 1 <<< rt }
  else if (bytes >>> 24) &&& 0x7F = 0x36 ∨ (bytes >>> 24) &&& 0x7F = 0x37 then
    let is_tbnz := (bytes >>> 24) &&& 0x1 = 1
    let is_64bit_op := (bytes >>> 31) &&& 0x1 = 1
    let rt := bytes &&& 0x1F
    let bit_pos := ((bytes >>> 19) &&& 0x1F) ||| (((bytes >>> 31) &&& 0x1) <<< 5)
    let offset : Int := sext ((bytes >>> 5) &&& 0x3FFF) 14 * 4
    let target := u64 ((address : Int) + offset)
    { z with mnemonic := if is_tbnz then "TBNZ" else "TBZ",
             branch_target := target, branch_offset := offset,
             has_branch_target := true, has_branch := true,
             branch_type := .BRANCH_CONDITIONAL,
             operands := arm64_register_name rt is_64bit_op ++ ", #" ++
                         toString bit_pos ++ ", 0x" ++ hexLower target,
             category := .INST_CATEGORY_BRANCH, is_valid := true, updates_pc := true }
  else z

/-- The `(op0 & 0xB) == 0x8` arm (lines 575-629): LDR/STR unsigned
immediate, LDUR/STUR, LDR literal (unreachable in the source for the same
reason; modelled verbatim). -/
def arm64_dec_ldst_group (bytes address : Nat) : DisassembledInstruction :=
  let z := zeroInst bytes address
  let size := (bytes >>> 30) &&& 0x3
  if (bytes >>> 24) = 0xB9 ∨ (bytes >>> 24) = 0xF9 ∨
     (bytes >>> 24) = 0x39 ∨ (bytes >>> 24) = 0x79 then
    let is_load := (bytes >>> 22) &&& 0x1 = 1
    let is_64bit := size = 0x3
    let rt := bytes &&& 0x1F
    let rn := (bytes >>> 5) &&& 0x1F
    let imm12 := (bytes >>> 10) &&& 0xFFF
    let offset := imm12 <<< size
    { z with mnemonic := if is_load then "LDR" else "STR",
             operands := arm64_register_name rt is_64bit ++ ", [" ++
                         arm64_register_name rn true ++ ", #" ++ toString offset ++ "]",
             category := .INST_CATEGORY_LOAD_STORE, is_valid := true }
  else if (bytes >>> 21) &&& 0x7FF = 0x1C0 ∨ (bytes >>> 21) &&& 0x7FF = 0x1C1 ∨
          (bytes >>> 21) &&& 0x7FF = 0x3C0 ∨ (bytes >>> 21) &&& 0x7FF = 0x3C1 then
    let is_load := (bytes >>> 22) &&& 0x1 = 1
    let is_64bit := size ≥ 0x2
    let rt := bytes &&& 0x1F
    let rn := (bytes >>> 5) &&& 0x1F
    let imm9 : Int := sext ((bytes >>> 12) &&& 0x1FF) 9
    { z with mnemonic := if is_load then "LDUR" else "STUR",
             operands := arm64_register_name rt is_64bit ++ ", [" ++
                         arm64_register_name rn true ++ ", #" ++ intDec imm9 ++ "]",
             category := .INST_CATEGORY_LOAD_STORE, is_valid := true }
  else if (bytes >>> 24) = 0x18 ∨ (bytes >>> 24) = 0x58 ∨
          (bytes >>> 24) = 0x98 ∨ (bytes >>> 24) = 0xD8 then
    let rt := bytes &&& 0x1F
    let offset : Int := sext ((bytes >>> 5) &&& 0x7FFFF) 19 * 4
    let target := u64 ((address : Int) + offset)
    { z with mnemonic := "LDR",
             operands := arm64_register_name rt true ++ ", 0x" ++ hexLower target,
             category := .INST_CATEGORY_LOAD_STORE, is_valid := true,
             regs_written := 1 <<< rt }
  else z

/-- The second `(op0 & 0xE) == 0xA` arm (lines 631-731): logical shifted
register, bitfield, three-source (dead code in the source, its condition
repeats the arm above; modelled verbatim). -/
def arm64_dec_logical_group (bytes address : Nat) : DisassembledInstruction :=
  let z := zeroInst bytes address
  if (bytes >>> 21) &&& 0xFF ≤ 0x77 then
    let opc := (bytes >>> 29) &&& 0x3
    let is_64bit := (bytes >>> 31) &&& 0x1 = 1
    let rd := bytes &&& 0x1F
    let rn := (bytes >>> 5) &&& 0x1F
    let rm := (bytes >>> 16) &&& 0x1F
    let nflag := (bytes >>> 21) &&& 0x1 = 1
    let mn := if opc = 0 then (if nflag then "BIC" else "AND")
              else if opc = 1 then (if nflag then "ORN" else "ORR")
              else if opc = 2 then (if nflag then "EON" else "EOR")
              else (if nflag then "BICS" else "ANDS")
    let imm6 := (bytes >>> 10) &&& 0x3F
    let shift_type := (bytes >>> 22) &&& 0x3
    let shift_name := if shift_type = 0 then "LSL" else if shift_type = 1 then "LSR"
                      else if shift_type = 2 then "ASR" else "ROR"
    if ¬ nflag ∧ opc = 1 ∧ rn = 31 then
      { z with mnemonic := "MOV",
               operands := arm64_register_name rd is_64bit ++ ", " ++
                           arm64_register_name rm is_64bit,
               regs_read := 1 <<< rm, regs_written := 1 <<< rd,
               category := .INST_CATEGORY_DATA_PROCESSING, is_valid := true }
    else
      { z with mnemonic := mn,
               operands := if imm6 ≠ 0 then
                             arm64_register_name rd is_64bit ++ ", " ++
                             arm64_register_name rn is_64bit ++ ", " ++
                             arm64_register_name rm is_64bit ++ ", " ++
                             shift_name ++ " #" ++ toString imm6
                           else
                             arm64_register_name rd is_64bit ++ ", " ++
                             arm64_register_name rn is_64bit ++ ", " ++
                             arm64_register_name rm is_64bit,
               regs_read := (1 <<< rn) ||| (1 <<< rm), regs_written := 1 <<< rd,
               flags_written := if (bytes >>> 20) &&& 0x1 = 1 then 0xF else 0,
               category := .INST_CATEGORY_DATA_PROCESSING, is_valid := true }
  else if 0x340 ≤ (bytes >>> 22) &&& 0x3FF ∧ (bytes >>> 22) &&& 0x3FF ≤ 0x34F then
    let is_64bit := (bytes >>> 31) &&& 0x1 = 1
    let opc := (bytes >>> 29) &&& 0x3
    let rd := bytes &&& 0x1F
    let rn := (bytes >>> 5) &&& 0x1F
    let immr := (bytes >>> 16) &&& 0x3F
    let imms := (bytes >>> 10) &&& 0x3F
    { z with mnemonic := if opc = 0x0 ∧ ¬ is_64bit then "BFM"
                         else if opc = 0x1 ∧ is_64bit then "SBFM"
                         else if opc = 0x2 ∧ is_64bit then "UBFM" else "BFM",
             operands := arm64_register_name rd is_64bit ++ ", " ++
                         arm64_register_name rn is_64bit ++ ", #" ++
                         toString immr ++ ", #" ++ toString imms,
             category := .INST_CATEGORY_DATA_PROCESSING, is_valid := true }
  else if 0x1B ≤ (bytes >>> 21) &&& 0xFF ∧ (bytes >>> 21) &&& 0xFF ≤ 0x1F then
    let is_64bit := (bytes >>> 31) &&& 0x1 = 1
    let rd := bytes &&& 0x1F
    let rn := (bytes >>> 5) &&& 0x1F
    let rm := (bytes >>> 16) &&& 0x1F
    let ra := (bytes >>> 10) &&& 0x1F
    let op := (bytes >>> 21) &&& 0x7
    let mn := if op = 0x0 then "MADD" else if op = 0x1 then "MSUB"
              else if op = 0x2 then "SMULL" else if op = 0x3 then "SMULH" else "MUL"
    if ra = 31 ∧ op = 0x0 then
      { z with mnemonic := "MUL",
               operands := arm64_register_name rd is_64bit ++ ", " ++
                           arm64_register_name rn is_64bit ++ ", " ++
                           arm64_register_name rm is_64bit,
               category := .INST_CATEGORY_DATA_PROCESSING, is_valid := true }
    else
      { z with mnemonic := mn,
               operands := arm64_register_name rd is_64bit ++ ", " ++
                           arm64_register_name rn is_64bit ++ ", " ++
                           arm64_register_name rm is_64bit ++ ", " ++
                           arm64_register_name ra is_64bit,
               category := .INST_CATEGORY_DATA_PROCESSING, is_valid := true }
  else z

/-- The CMP / CMN arm (lines 733-764).  Its immediate half is unreachable in
the source (words with top byte 0xF1/0x71 are captured by the
ADD/SUB-immediate arm first); modelled verbatim. -/
def arm64_dec_cmp_group (bytes address : Nat) : DisassembledInstruction :=
  let z := zeroInst bytes address
  let is_64bit := (bytes >>> 31) &&& 0x1 = 1
  let rn := (bytes >>> 5) &&& 0x1F
  if (bytes >>> 24) &&& 0xFF = 0xF1 ∨ (bytes >>> 24) &&& 0xFF = 0x71 then
    let is_sub := (bytes >>> 30) &&& 0x1 = 1
    let imm12 := (bytes >>> 10) &&& 0xFFF
    { z with mnemonic := if is_sub then "CMP" else "CMN",
             operands := arm64_register_name rn is_64bit ++ ", #" ++ toString imm12,
             category := .INST_CATEGORY_DATA_PROCESSING, is_valid := true,
             regs_read := 1 <<< rn, flags_written := 0xF }
  else
    let is_sub := (bytes >>> 30) &&& 0x1 = 1
    let rm := (bytes >>> 16) &&& 0x1F
    { z with mnemonic := if is_sub then "CMP" else "CMN",
             operands := arm64_register_name rn is_64bit ++ ", " ++
                         arm64_register_name rm is_64bit,
             category := .INST_CATEGORY_DATA_PROCESSING, is_valid := true,
             regs_read := (1 <<< rn) ||| (1 <<< rm), flags_written := 0xF }

/-- The LSL/LSR/ASR/ROR arm (lines 766-794). -/
def arm64_dec_shift (bytes address : Nat) : DisassembledInstruction :=
  let z := zeroInst bytes address
  let is_64bit := (bytes >>> 31) &&& 0x1 = 1
  let rd := bytes &&& 0x1F
  let rn := (bytes >>> 5) &&& 0x1F
  let rm := (bytes >>> 16) &&& 0x1F
  let shift_type := (bytes >>> 22) &&& 0x3
  let imm6 := (bytes >>> 10) &&& 0x3F
  let shift_name := if shift_type = 0x0 then "LSL" else if shift_type = 0x1 then "LSR"
                    else if shift_type = 0x2 then "ASR" else "ROR"
  { z with mnemonic := shift_name,
           operands := if imm6 ≠ 0 then
                         arm64_register_name rd is_64bit ++ ", " ++
                         arm64_register_name rn is_64bit ++ ", #" ++ toString imm6
                       else
                         arm64_register_name rd is_64bit ++ ", " ++
                         arm64_register_name rn is_64bit ++ ", " ++
                         arm64_register_name rm is_64bit,
           category := .INST_CATEGORY_DATA_PROCESSING, is_valid := true }

/-- The CCMP arm (lines 796-814). -/
def arm64_dec_ccmp (bytes address : Nat) : DisassembledInstruction :=
  let z := zeroInst bytes address
  let is_64bit := (bytes >>> 31) &&& 0x1 = 1
  let rn := (bytes >>> 5) &&& 0x1F
  let rm := (bytes >>> 16) &&& 0x1F
  let nzcv := bytes &&& 0xF
  let cond := (bytes >>> 12) &&& 0xF
  { z with mnemonic := "CCMP",
           operands := arm64_register_name rn is_64bit ++ ", " ++
                       arm64_register_name rm is_64bit ++ ", #" ++
                       toString nzcv ++ ", " ++ arm64_condition_string cond,
           category := .INST_CATEGORY_DATA_PROCESSING, is_valid := true,
           regs_read := (1 <<< rn) ||| (1 <<< rm), flags_written := 0xF }

/-- The NOP arm (lines 816-821). -/
def arm64_dec_nop (bytes address : Nat) : DisassembledInstruction :=
  let z := zeroInst bytes address
  { z with mnemonic := "NOP", operands := "",
           category := .INST_CATEGORY_SYSTEM, is_valid := true }

/-- The hint arm (lines 822-836). -/
def arm64_dec_hint (bytes address : Nat) : DisassembledInstruction :=
  let z := zeroInst bytes address
  let crm := (bytes >>> 8) &&& 0xF
  let op2 := (bytes >>> 5) &&& 0x7
  { z with mnemonic := if crm = 0x0 ∧ op2 = 0x1 then "YIELD"
                       else if crm = 0x0 ∧ op2 = 0x2 then "WFE"
                       else if crm = 0x0 ∧ op2 = 0x3 then "WFI"
                       else if crm = 0x0 ∧ op2 = 0x4 then "SEV"
                       else if crm = 0x0 ∧ op2 = 0x5 then "SEVL" else "HINT",
           operands := "",
           category := .INST_CATEGORY_SYSTEM, is_valid := true }

/-- The barrier arm (lines 838-850). -/
def arm64_dec_barrier (bytes address : Nat) : DisassembledInstruction :=
  let z := zeroInst bytes address
  let crm := (bytes >>> 8) &&& 0xF
  let op2 := (bytes >>> 5) &&& 0x7
  { z with mnemonic := if op2 = 0x4 then "DSB" else if op2 = 0x5 then "DMB"
                       else if op2 = 0x6 then "ISB" else "BARRIER",
           operands := "#" ++ toString crm,
           category := .INST_CATEGORY_SYSTEM, is_valid := true }

/-- The MRS / MSR arm (lines 851-871). -/
def arm64_dec_mrs_msr (bytes address : Nat) : DisassembledInstruction :=
  let z := zeroInst bytes address
  let is_read := (bytes >>> 21) &&& 0x1 = 1
  let rt := bytes &&& 0x1F
  let sysreg := (bytes >>> 5) &&& 0xFFFF
  let sysname := "S" ++ toString ((sysreg >>> 14) &&& 0x3) ++ "_" ++
                 toString ((sysreg >>> 11) &&& 0x7) ++ "_c" ++
                 toString ((sysreg >>> 7) &&& 0xF) ++ "_c" ++
                 toString ((sysreg >>> 3) &&& 0xF) ++ "_" ++
                 toString (sysreg &&& 0x7)
  { z with mnemonic := if is_read then "MRS" else "MSR",
           operands := if is_read then arm64_register_name rt true ++ ", " ++ sysname
                       else sysname ++ ", " ++ arm64_register_name rt true,
           category := .INST_CATEGORY_SYSTEM, is_valid := true }

/-- The decode cascade of `disasm_arm64` (lines 320-871): the chain of
`if`/`else if` bit-pattern tests run on the zeroed record, each arm given by
one of the `arm64_dec_*` definitions above.  Arms that match no inner
sub-pattern leave the record invalid, exactly as the C does. -/
def arm64_cascade (bytes address : Nat) : DisassembledInstruction :=
  let op0 := (bytes >>> 25) &&& 0xF
  if (bytes >>> 26) &&& 0x3F = 0x5 ∨ (bytes >>> 26) &&& 0x3F = 0x25 then
    arm64_dec_b_bl bytes address
  else if bytes &&& 0x9F000000 = 0x10000000 ∨ bytes &&& 0x9F000000 = 0x90000000 then
    arm64_dec_adr bytes address
  else if 0x6B0 ≤ (bytes >>> 21) &&& 0x7FF ∧ (bytes >>> 21) &&& 0x7FF ≤ 0x6B3 then
    arm64_dec_br_group bytes address
  else if 0x290 ≤ (bytes >>> 22) &&& 0x3FF ∧ (bytes >>> 22) &&& 0x3FF ≤ 0x2BF then
    arm64_dec_ldp_stp bytes address
  else if op0 &&& 0x8 = 0x8 then arm64_dec_addsub_movw bytes address
  else if op0 &&& 0xE = 0xA then arm64_dec_condbr_group bytes address
  else if op0 &&& 0xB = 0x8 then arm64_dec_ldst_group bytes address
  else if op0 &&& 0xE = 0xA then arm64_dec_logical_group bytes address
  else if (bytes >>> 24) &&& 0xFF = 0xF1 ∨ (bytes >>> 24) &&& 0xFF = 0x71 ∨
          (bytes >>> 24) &&& 0xFF = 0xEB ∨ (bytes >>> 24) &&& 0xFF = 0x6B then
    arm64_dec_cmp_group bytes address
  else if 0x69A ≤ (bytes >>> 21) &&& 0x7FF ∧ (bytes >>> 21) &&& 0x7FF ≤ 0x69F then
    arm64_dec_shift bytes address
  else if 0x3A2 ≤ (bytes >>> 21) &&& 0x7FF ∧ (bytes >>> 21) &&& 0x7FF ≤ 0x3A3 then
    arm64_dec_ccmp bytes address
  else if bytes = 0xD503201F then arm64_dec_nop bytes address
  else if bytes >>> 12 = 0xD503301 then arm64_dec_hint bytes address
  else if bytes >>> 12 = 0xD503309 then arm64_dec_barrier bytes address
  else if bytes >>> 21 = 0x6A1 then arm64_dec_mrs_msr bytes address
  else zeroInst bytes address

/-- The generic LDR/STR descriptor of the fallback block (lines 876-889). -/
def arm64_fb_ldst (bytes : Nat) (r : DisassembledInstruction) : DisassembledInstruction :=
  let is_load := (bytes >>> 22) &&& 0x1 = 1
  let rt := bytes &&& 0x1F
  let rn := (bytes >>> 5) &&& 0x1F
  let size := (bytes >>> 30) &&& 0x3
  let is_64bit := size ≥ 0x2
  { r with mnemonic := if is_load then "LDR" else "STR",
           operands := arm64_register_name rt is_64bit ++ ", [" ++
                       arm64_register_name rn true ++ ", ...]",
           category := .INST_CATEGORY_LOAD_STORE, is_valid := true }

/-- The DP3SRC descriptor of the fallback block (lines 891-904). -/
def arm64_fb_dp3 (bytes : Nat) (r : DisassembledInstruction) : DisassembledInstruction :=
  let rd := bytes &&& 0x1F
  let rn := (bytes >>> 5) &&& 0x1F
  let rm := (bytes >>> 16) &&& 0x1F
  let is_64bit := (bytes >>> 31) &&& 0x1 = 1
  { r with mnemonic := "DP3SRC",
           operands := arm64_register_name rd is_64bit ++ ", " ++
                       arm64_register_name rn is_64bit ++ ", " ++
                       arm64_register_name rm is_64bit ++ ", ...",
           category := .INST_CATEGORY_DATA_PROCESSING, is_valid := true }

/-- The FMOV record of the fallback block (lines 908-915), whose `return`
skips the remaining post-processing. -/
def arm64_fb_fmov (bytes : Nat) (r : DisassembledInstruction) : DisassembledInstruction :=
  let rd := bytes &&& 0x1F
  let rn := (bytes >>> 5) &&& 0x1F
  { r with mnemonic := "FMOV",
           operands := "D" ++ toString rd ++ ", D" ++ toString rn,
           category := .INST_CATEGORY_SIMD, is_valid := true }

/-- The DPREG descriptor of the fallback block (lines 923-934). -/
def arm64_fb_dpreg (bytes : Nat) (r : DisassembledInstruction) : DisassembledInstruction :=
  let rd := bytes &&& 0x1F
  let rn := (bytes >>> 5) &&& 0x1F
  let is_64bit := (bytes >>> 31) &&& 0x1 = 1
  { r with mnemonic := "DPREG",
           operands := arm64_register_name rd is_64bit ++ ", " ++
                       arm64_register_name rn is_64bit ++ ", ...",
           category := .INST_CATEGORY_DATA_PROCESSING, is_valid := true }

/-- The `if (!inst->is_valid)` fallback block of `disasm_arm64`
(lines 873-942).  The second component records the early `return` taken in
the FMOV case, which skips the remaining post-processing. -/
def arm64_fallback (bytes : Nat) (r : DisassembledInstruction) :
    DisassembledInstruction × Bool :=
  if r.is_valid then (r, false)
  else
    let op0 := (bytes >>> 25) &&& 0xF
    if op0 &&& 0xB = 0x8 ∨ op0 &&& 0xB = 0x9 then (arm64_fb_ldst bytes r, false)
    else if op0 = 0xB then (arm64_fb_dp3 bytes r, false)
    else if op0 &&& 0x7 = 0x7 ∨ op0 &&& 0xE = 0xE then
      if (bytes >>> 21) &&& 0x7FF = 0x3C0 then (arm64_fb_fmov bytes r, true)
      else ({ r with mnemonic := "SIMD", operands := "...",
                     category := .INST_CATEGORY_SIMD, is_valid := true }, false)
    else if op0 &&& 0xE = 0xA then (arm64_fb_dpreg bytes r, false)
    else if op0 = 0xD then
      ({ r with mnemonic := "SYS", operands := "...",
                category := .INST_CATEGORY_SYSTEM, is_valid := true }, false)
    else (r, false)

/-- Space-or-tab test used by the ORR-alias rewrite. -/
def isSpTab (c : Char) : Bool := c == ' ' || c == '\t'

/-- Break a list at the first occurrence of `ch` (the `strchr` pattern):
`some (before, after)` where `ch` itself is dropped; `none` if absent. -/
def breakAt (ch : Char) : List Char → Option (List Char × List Char)
  | [] => none
  | c :: cs =>
    if c = ch then some ([], cs)
    else (breakAt ch cs).map (fun p => (c :: p.1, p.2))

/-- The post-hoc `ORR Xd, XZR, Xm` to `MOV` rewrite of `disasm_arm64`
(lines 945-986): pure string surgery on the operand text. -/
def orr_rewrite (r : DisassembledInstruction) : DisassembledInstruction :=
  if r.is_valid = true ∧ r.mnemonic = "ORR" then
    match breakAt ',' r.operands.toList with
    | none => r
    | some (rdPart, rest1) =>
      match breakAt ',' rest1 with
      | none => r
      | some (midPart, rest2) =>
        if midPart.length < 32 then
          let lead := midPart.dropWhile isSpTab
          let mid := (lead.reverse.dropWhile isSpTab).reverse
          if mid = "SP".toList ∨ mid = "WSP".toList ∨
             mid = "XZR".toList ∨ mid = "WZR".toList then
            let rd := rdPart.take 15
            let rmSrc := rest2.dropWhile isSpTab
            let rm := (rmSrc.takeWhile (fun c => !(c == '\n' || c == '\r'))).take 15
            { r with mnemonic := "MOV",
                     operands := String.mk rd ++ ", " ++ String.mk rm,
                     category := .INST_CATEGORY_DATA_PROCESSING }
          else r
        else r
  else r

/-- The final `.word` fallback of `disasm_arm64` (lines 988-993). -/
def word_fallback (bytes : Nat) (r : DisassembledInstruction) :
    DisassembledInstruction :=
  if r.is_valid then r
  else { r with mnemonic := ".word", operands := "0x" ++ hexUpper8 bytes,
                category := .INST_CATEGORY_UNKNOWN, is_valid := true }

/-- Composition of `full_disasm` (line 995). -/
def set_full_disasm (r : DisassembledInstruction) : DisassembledInstruction :=
  { r with full_disasm := "0x" ++ hexLower r.address ++ ": " ++
                          r.mnemonic ++ " " ++ r.operands }

/-- `arm64_is_prologue`: the context is reduced to its heuristics flag
(`ctx == NULL` behaves as flag off). -/
def arm64_is_prologue (flag : Bool) (inst : DisassembledInstruction) : Bool :=
  flag && (strstrB inst.mnemonic "STP" && strstrB inst.operands "X29" &&
           strstrB inst.operands "X30" && strstrB inst.operands "#-")

/-- `arm64_is_epilogue`: RET is always an epilogue; the LDP form is
heuristics-flag controlled. -/
def arm64_is_epilogue (flag : Bool) (inst : DisassembledInstruction) : Bool :=
  if inst.mnemonic = "RET" then true
  else flag && (strstrB inst.mnemonic "LDP" && strstrB inst.operands "X29" &&
                strstrB inst.operands "X30")

/-- The post-processing tail of `disasm_arm64` (lines 944-999): ORR-alias
rewrite, `.word` fallback, `full_disasm`, prologue/epilogue heuristics. -/
def arm64_finish (flag : Bool) (bytes : Nat) (r : DisassembledInstruction) :
    DisassembledInstruction :=
  let r4 := set_full_disasm (word_fallback bytes (orr_rewrite r))
  { r4 with is_function_start := arm64_is_prologue flag r4,
            is_function_end := arm64_is_epilogue flag r4 }

/-- `disasm_arm64`: cascade, fallback block (with its FMOV early return
skipping the post-processing), then the post-processing tail, in source
order.  The context argument is reduced to its heuristics flag. -/
def disasm_arm64 (flag : Bool) (bytes address : Nat) : DisassembledInstruction :=
  let p := arm64_fallback bytes (arm64_cascade bytes address)
  if p.2 then p.1 else arm64_finish flag bytes p.1

/-- `(int8_t)` cast of a byte value. -/
def int8c (b : Nat) : Int := if b < 0x80 then (b : Int) else (b : Int) - 0x100

/-- `*(int32_t*)` read of four little-endian bytes. -/
def int32le (b0 b1 b2 b3 : Nat) : Int :=
  let v := b0 + 0x100 * b1 + 0x10000 * b2 + 0x1000000 * b3
  if v < 0x80000000 then (v : Int) else (v : Int) - 0x100000000

/-- 64-bit register table of the x86-64 PUSH/POP decode. -/
def x86RegTable : List String := ["rax", "rcx", "rdx", "rbx", "rsp", "rbp", "rsi", "rdi"]

/-- REX-extended register table of the x86-64 PUSH/POP decode. -/
def x86RegTableRex : List String := ["r8", "r9", "r10", "r11", "r12", "r13", "r14", "r15"]

/-- 32-bit register table of the x86-64 `MOV r32, imm32` decode. -/
def x86Reg32Table : List String := ["eax", "ecx", "edx", "ebx", "esp", "ebp", "esi", "edi"]

/-- Condition mnemonics for the `0x70..0x7F` short conditional jumps. -/
def x86CondTable : List String :=
  ["JO", "JNO", "JB", "JAE", "JE", "JNE", "JBE", "JA",
   "JS", "JNS", "JP", "JNP", "JL", "JGE", "JLE", "JG"]

/-- Condition mnemonics for the `0x0F 0x80..0x8F` near conditional jumps. -/
def x86CondTable2 : List String :=
  ["JO", "JNO", "JB", "JNB", "JZ", "JNZ", "JBE", "JNBE",
   "JS", "JNS", "JP", "JNP", "JL", "JNL", "JLE", "JNLE"]

/-- Mnemonics for the `0x0F 0x90..0x9F` SETcc family. -/
def x86SetTable : List String :=
  ["SETO", "SETNO", "SETB", "SETNB", "SETZ", "SETNZ", "SETBE", "SETNBE",
   "SETS", "SETNS", "SETP", "SETNP", "SETL", "SETNL", "SETLE", "SETNLE"]

/-- The opcode dispatch of `disasm_x86_64` (lines 1097-1372), abstracted
over the locals the source computes first (`has_rex`, `rex`, `opcode`,
`pos`); `rd` is the byte-stream read. -/
def disasm_x86_64_core (rd : Nat → Nat) (address : Nat) (has_rex : Bool)
    (rex opcode pos : Nat) : DisassembledInstruction :=
  let z : DisassembledInstruction := { zeroInst 0 address with length := 1 }
  if opcode = 0xC3 then
      { z with mnemonic := "RET", has_branch := true, branch_type := .BRANCH_RETURN,
               category := .INST_CATEGORY_BRANCH, is_valid := true,
               is_function_end := true, length := pos }
    else if opcode = 0xCB then
      { z with mnemonic := "RETF", has_branch := true, branch_type := .BRANCH_RETURN,
               category := .INST_CATEGORY_BRANCH, is_valid := true,
               is_function_end := true, length := pos }
    else if opcode = 0xC2 then
      let base := if pos + 2 ≤ 15 then
          { z with mnemonic := "RET",
                   operands := "0x" ++ hexLower (rd pos + 0x100 * rd (pos + 1)),
                   length := pos + 2 }
        else { z with mnemonic := "RET" }
      { base with has_branch := true, branch_type := .BRANCH_RETURN,
                  category := .INST_CATEGORY_BRANCH, is_valid := true,
                  is_function_end := true }
    else if opcode = 0x90 then
      { z with mnemonic := "NOP", category := .INST_CATEGORY_DATA_PROCESSING,
               is_valid := true, length := pos }
    else if opcode = 0xCC then
      { z with mnemonic := "INT3", category := .INST_CATEGORY_SYSTEM,
               is_valid := true, length := pos }
    else if opcode = 0xF4 then
      { z with mnemonic := "HLT", category := .INST_CATEGORY_SYSTEM,
               is_valid := true, length := pos }
    else if opcode = 0xC9 then
      { z with mnemonic := "LEAVE", category := .INST_CATEGORY_DATA_PROCESSING,
               is_valid := true, length := pos }
    else if opcode = 0x9C then
      { z with mnemonic := if has_rex then "PUSHFQ" else "PUSHF",
               category := .INST_CATEGORY_DATA_PROCESSING, is_valid := true, length := pos }
    else if opcode = 0x9D then
      { z with mnemonic := if has_rex then "POPFQ" else "POPF",
               category := .INST_CATEGORY_DATA_PROCESSING, is_valid := true, length := pos }
    else if opcode = 0x99 then
      { z with mnemonic := if has_rex then "CQO" else "CDQ",
               category := .INST_CATEGORY_DATA_PROCESSING, is_valid := true, length := pos }
    else if opcode = 0xF5 then
      { z with mnemonic := "CMC", category := .INST_CATEGORY_DATA_PROCESSING,
               is_valid := true, length := pos }
    else if opcode = 0xF8 then
      { z with mnemonic := "CLC", category := .INST_CATEGORY_DATA_PROCESSING,
               is_valid := true, length := pos }
    else if opcode = 0xF9 then
      { z with mnemonic := "STC", category := .INST_CATEGORY_DATA_PROCESSING,
               is_valid := true, length := pos }
    else if 0x50 ≤ opcode ∧ opcode ≤ 0x57 then
      let reg_idx := opcode - 0x50
      { z with mnemonic := "PUSH",
               operands := (if has_rex ∧ rex &&& 0x01 ≠ 0 then x86RegTableRex
                            else x86RegTable).getD reg_idx "",
               category := .INST_CATEGORY_DATA_PROCESSING, is_valid := true,
               length := pos, regs_read := 1 <<< reg_idx }
    else if 0x58 ≤ opcode ∧ opcode ≤ 0x5F then
      let reg_idx := opcode - 0x58
      { z with mnemonic := "POP",
               operands := (if has_rex ∧ rex &&& 0x01 ≠ 0 then x86RegTableRex
                            else x86RegTable).getD reg_idx "",
               category := .INST_CATEGORY_DATA_PROCESSING, is_valid := true,
               length := pos, regs_written := 1 <<< reg_idx }
    else if opcode = 0xE9 then
      if pos + 4 ≤ 15 then
        let offset := int32le (rd pos) (rd (pos + 1)) (rd (pos + 2)) (rd (pos + 3))
        let target := u64 ((address : Int) + (pos : Int) + 4 + offset)
        { z with mnemonic := "JMP", branch_target := target, has_branch_target := true,
                 has_branch := true, operands := "0x" ++ hexLower target,
                 branch_type := .BRANCH_UNCONDITIONAL, category := .INST_CATEGORY_BRANCH,
                 is_valid := true, length := pos + 4, updates_pc := true }
      else { z with mnemonic := "JMP" }
    else if opcode = 0xEB then
      if pos < 15 then
        let offset := int8c (rd pos)
        let target := u64 ((address : Int) + (pos : Int) + 1 + offset)
        { z with mnemonic := "JMP", branch_target := target, has_branch_target := true,
                 has_branch := true, operands := "0x" ++ hexLower target,
                 branch_type := .BRANCH_UNCONDITIONAL, category := .INST_CATEGORY_BRANCH,
                 is_valid := true, length := pos + 1, updates_pc := true }
      else { z with mnemonic := "JMP" }
    else if opcode = 0xE8 then
      if pos + 4 ≤ 15 then
        let offset := int32le (rd pos) (rd (pos + 1)) (rd (pos + 2)) (rd (pos + 3))
        let target := u64 ((address : Int) + (pos : Int) + 4 + offset)
        { z with mnemonic := "CALL", branch_target := target, has_branch_target := true,
                 has_branch := true, operands := "0x" ++ hexLower target,
                 branch_type := .BRANCH_CALL, category := .INST_CATEGORY_BRANCH,
                 is_valid := true, length := pos + 4, updates_pc := true }
      else { z with mnemonic := "CALL" }
    else if 0x70 ≤ opcode ∧ opcode ≤ 0x7F then
      let mn := x86CondTable.getD (opcode - 0x70) ""
      if pos < 15 then
        let offset := int8c (rd pos)
        let target := u64 ((address : Int) + (pos : Int) + 1 + offset)
        { z with mnemonic := mn, branch_target := target, branch_offset := offset,
                 has_branch_target := true, has_branch := true,
                 branch_type := .BRANCH_CONDITIONAL,
                 operands := "0x" ++ hexLower target, category := .INST_CATEGORY_BRANCH,
                 is_valid := true, length := pos + 1, updates_pc := true }
      else { z with mnemonic := mn }
    else if opcode = 0x0F ∧ z.length < 15 then
      let opcode2 := rd 1
      if 0x80 ≤ opcode2 ∧ opcode2 ≤ 0x8F then
        let offset := int32le (rd 2) (rd 3) (rd 4) (rd 5)
        let target := u64 ((address : Int) + 6 + offset)
        { z with mnemonic := x86CondTable2.getD (opcode2 - 0x80) "",
                 branch_target := target, has_branch_target := true, has_branch := true,
                 operands := "0x" ++ hexLower target, branch_type := .BRANCH_CONDITIONAL,
                 category := .INST_CATEGORY_BRANCH, is_valid := true, length := 6 }
      else if 0x90 ≤ opcode2 ∧ opcode2 ≤ 0x9F then
        { z with mnemonic := x86SetTable.getD (opcode2 - 0x90) "",
                 operands := "r/m8", length := 3,
                 category := .INST_CATEGORY_DATA_PROCESSING, is_valid := true }
      else if opcode2 = 0x0B then
        { z with mnemonic := "UD2", category := .INST_CATEGORY_SYSTEM,
                 is_valid := true, length := 2 }
      else
        { z with mnemonic := ".byte", operands := "0x0F 0x" ++ hexUpper2 opcode2,
                 is_valid := true, length := 2 }
    else if 0xB8 ≤ opcode ∧ opcode ≤ 0xBF then
      let imm := rd 1 + 0x100 * rd 2 + 0x10000 * rd 3 + 0x1000000 * rd 4
      { z with mnemonic := "MOV",
               operands := x86Reg32Table.getD (opcode - 0xB8) "" ++ ", 0x" ++ hexUpper8 imm,
               category := .INST_CATEGORY_DATA_PROCESSING, is_valid := true, length := 5 }
    else if opcode = 0xCD then
      { z with mnemonic := "INT", operands := "0x" ++ hexUpper2 (rd 1),
               category := .INST_CATEGORY_SYSTEM, is_valid := true, length := 2 }
    else if opcode = 0xC9 then
      -- duplicate LEAVE arm of the source (line 1360); dead, kept verbatim
      { z with mnemonic := "LEAVE", category := .INST_CATEGORY_DATA_PROCESSING,
               is_valid := true, length := 1 }
  else
    { z with mnemonic := ".byte", operands := "0x" ++ hexUpper2 opcode,
             is_valid := true, length := 1 }

/-- `disasm_x86_64` from DisassemblyEngine.c (lines 1075-1379).  The byte
buffer is an unbounded `uint8_t*`; it is modelled as a stream `Nat → Nat`
with every read taken mod 256 (the `uint8_t` type).  The record is zeroed
at entry; `raw_bytes` is never populated by this decoder.  The REX-prefix
handling (lines 1081-1092) computes the locals handed to the dispatch. -/
def disasm_x86_64 (bs : Nat → Nat) (address : Nat) : DisassembledInstruction :=
  let rd : Nat → Nat := fun i => bs i % 256
  let has_rex : Bool := decide (0x40 ≤ rd 0 ∧ rd 0 ≤ 0x4F)
  let rex := if has_rex then rd 0 else 0
  let pos0 := if has_rex then 1 else 0
  let r := disasm_x86_64_core rd address has_rex rex (rd pos0) (pos0 + 1)
  { r with full_disasm := "0x" ++ hexLower address ++ ": " ++ r.mnemonic ++ " " ++ r.operands }

example : (disasm_arm64 true 0x94000003 0x1000).mnemonic = "BL" := by decide
example : (disasm_arm64 true 0x94000003 0x1000).branch_target = 0x100C := by decide
example : (disasm_arm64 true 0xD65F03C0 0x4000).is_function_end = true := by decide
example : (disasm_arm64 true 0xA9BF7BFD 0x2000).operands = "X29, X30, [SP, #-16]!" := by
  decide
example : (disasm_arm64 true 0xA9BF7BFD 0x2000).is_function_start = true := by decide
example : (disasm_arm64 true 0x00000000 0x0).mnemonic = ".word" := by decide
example : (disasm_arm64 true 0xF100001F 0x1000).mnemonic = "SUB" := by decide

example :
    (disasm_x86_64 (fun i => if i = 0 then 0x70 else if i = 1 then 0x10 else 0)
      0x1000).branch_target = 0x1012 := by decide
example :
    (disasm_x86_64 (fun i => if i = 0 then 0x70 else if i = 1 then 0x10 else 0)
      0x1000).branch_offset = 0x10 := by decide
example :
    (disasm_x86_64 (fun i => if i = 0 then 0xC3 else 0) 0x1000).is_function_end = true := by
  decide

/-! ## ClassDumpC.c: the ObjC runtime-surface scanner -/

/-- `class_dump_info_t` (fields used by ClassDumpC.c). -/
structure class_dump_info_t where
  className : String
  superclassName : String
  isSwift : Bool
  isMetaClass : Bool
  protocols : List String
  instanceMethods : List String
  classMethods : List String
  properties : List String
  ivars : List String
deriving DecidableEq, Repr

/-- `category_dump_info_t`. -/
structure category_dump_info_t where
  categoryName : String
  className : String
  protocols : List String
  instanceMethods : List String
  classMethods : List String
  properties : List String
deriving DecidableEq, Repr

/-- `protocol_dump_info_t`. -/
structure protocol_dump_info_t where
  protocolName : String
  protocols : List String
  methods : List String
deriving DecidableEq, Repr

/-- `class_dump_result_t`: the three entity vectors (counts are the list
lengths; the generated-header fields are not modelled). -/
structure class_dump_result_t where
  classes : List class_dump_info_t
  categories : List category_dump_info_t
  protocols : List protocol_dump_info_t
deriving DecidableEq, Repr

/-- The stop characters of `class_dump_safe_strndup`: NUL, LF, CR. -/
def isStopChar (c : Char) : Bool := c == Char.ofNat 0 || c == '\n' || c == '\r'

/-- The length-counting loop of `class_dump_safe_strndup`
(`while (len < max_len && start[len] != 0/\n/\r) len++`); running off the
end of the list models running off the mapped buffer, which the callers
prevent by passing the exact remaining size. -/
def strndupLen : List Char → Nat → Nat
  | _, 0 => 0
  | [], _ + 1 => 0
  | c :: cs, m + 1 => if isStopChar c then 0 else 1 + strndupLen cs m

/-- `class_dump_safe_strndup`: `none` models the NULL returns (zero budget or
empty tail). -/
def class_dump_safe_strndup (s : List Char) (maxLen : Nat) : Option (List Char) :=
  if maxLen = 0 then none
  else
    let len := strndupLen s maxLen
    if len = 0 then none else some (s.take len)

/-- `class_dump_is_swift_class`. -/
def class_dump_is_swift_class (n : String) : Bool :=
  strstrB n "_TtC" || strstrB n "_Tt" || strstrB n "Swift"

/-- `class_dump_is_meta_class`. -/
def class_dump_is_meta_class (n : String) : Bool := strstrB n "_OBJC_METACLASS_$_"

/-- Mutate the first list element satisfying `p` (the C code mutates through
the pointer returned by a linear find, i.e. the first match). -/
def updateFirst {α : Type} (p : α → Bool) (f : α → α) : List α → List α
  | [] => []
  | x :: xs => if p x then f x :: xs else x :: updateFirst p f xs

/-- `class_dump_find_class` (linear search, first match). -/
def class_dump_find_class (r : class_dump_result_t) (name : String) :
    Option class_dump_info_t :=
  r.classes.find? (fun c => c.className == name)

/-- `class_dump_find_category` (uniqueness key is the name pair). -/
def class_dump_find_category (r : class_dump_result_t) (cn gn : String) :
    Option category_dump_info_t :=
  r.categories.find? (fun c => c.className == cn && c.categoryName == gn)

/-- `class_dump_find_protocol`. -/
def class_dump_find_protocol (r : class_dump_result_t) (name : String) :
    Option protocol_dump_info_t :=
  r.protocols.find? (fun p => p.protocolName == name)

/-- `class_dump_add_unique_string`: set-insert into a string vector. -/
def class_dump_add_unique_string (l : List String) (v : String) : List String :=
  if l.contains v then l else l ++ [v]

/-- `add_class_to_result`: no-op when the name exists, else append a fresh
class with superclass NSObject. -/
def add_class_to_result (r : class_dump_result_t) (className : String) :
    class_dump_result_t :=
  if (class_dump_find_class r className).isSome then r
  else { r with classes := r.classes ++
          [{ className := className, superclassName := "NSObject",
             isSwift := class_dump_is_swift_class className,
             isMetaClass := class_dump_is_meta_class className,
             protocols := [], instanceMethods := [], classMethods := [],
             properties := [], ivars := [] }] }

/-- `add_category_to_result`: the duplicate check compares only the category
name; the class name of a fresh entry is always NSObject. -/
def add_category_to_result (r : class_dump_result_t) (categoryName : String) :
    class_dump_result_t :=
  if r.categories.any (fun c => c.categoryName == categoryName) then r
  else { r with categories := r.categories ++
          [{ categoryName := categoryName, className := "NSObject",
             protocols := [], instanceMethods := [], classMethods := [],
             properties := [] }] }

/-- `add_protocol_to_result`. -/
def add_protocol_to_result (r : class_dump_result_t) (protocolName : String) :
    class_dump_result_t :=
  if (class_dump_find_protocol r protocolName).isSome then r
  else { r with protocols := r.protocols ++
          [{ protocolName := protocolName, protocols := [], methods := [] }] }

/-- `class_dump_add_category_with_class`: no-op when the (class, category)
pair exists, else append a fresh category. -/
def class_dump_add_category_with_class (r : class_dump_result_t)
    (class_name category_name : String) : class_dump_result_t :=
  if (class_dump_find_category r class_name category_name).isSome then r
  else { r with categories := r.categories ++
          [{ categoryName := category_name, className := class_name,
             protocols := [], instanceMethods := [], classMethods := [],
             properties := [] }] }

/-- `class_dump_add_method_to_class` applied through the first matching
class (the pointer the C obtained from `class_dump_find_class`). -/
def class_dump_add_method_to_class_at (r : class_dump_result_t)
    (name method : String) (is_class_method : Bool) : class_dump_result_t :=
  let f : class_dump_info_t → class_dump_info_t := fun c =>
    if is_class_method then
      { c with classMethods := class_dump_add_unique_string c.classMethods method }
    else
      { c with instanceMethods := class_dump_add_unique_string c.instanceMethods method }
  { r with classes := updateFirst (fun c => c.className == name) f r.classes }

/-- `class_dump_add_method_to_category` applied through the first matching
(class, category) pair. -/
def class_dump_add_method_to_category_at (r : class_dump_result_t)
    (cn gn method : String) (is_class_method : Bool) : class_dump_result_t :=
  let f : category_dump_info_t → category_dump_info_t := fun c =>
    if is_class_method then
      { c with classMethods := class_dump_add_unique_string c.classMethods method }
    else
      { c with instanceMethods := class_dump_add_unique_string c.instanceMethods method }
  { r with categories :=
      updateFirst (fun c => c.className == cn && c.categoryName == gn) f r.categories }

/-- The ivar insertion of `class_dump_scan_ivars` through the first matching
class. -/
def class_dump_add_ivar_at (r : class_dump_result_t) (cn ivar : String) :
    class_dump_result_t :=
  let f : class_dump_info_t → class_dump_info_t := fun c =>
    { c with ivars := class_dump_add_unique_string c.ivars ivar }
  { r with classes := updateFirst (fun c => c.className == cn) f r.classes }

/-- The `strstr(raw, needle)` split: `some (before, after)` at the first
occurrence of `needle`, the needle itself dropped. -/
def findSubstrSplit (needle : List Char) : List Char → Option (List Char × List Char)
  | [] => none
  | c :: cs =>
    if needle.isPrefixOf (c :: cs) then some ([], (c :: cs).drop needle.length)
    else (findSubstrSplit needle cs).map (fun p => (c :: p.1, p.2))

/-- `class_dump_split_category`: split the raw tail on the first occurrence
of the Apple mangling separator.  The tails handed to it by the scanner are
NUL-free C strings, so the source `strlen` is the list length. -/
def class_dump_split_category (raw : List Char) :
    Option (List Char) × Option (List Char) :=
  match findSubstrSplit ("_$_".toList) raw with
  | some (before, after) =>
    (class_dump_safe_strndup before before.length,
     class_dump_safe_strndup after after.length)
  | none => (none, some raw)

/-- The `_OBJC_CLASS_$_` prefix used by `class_dump_analyze_classes`. -/
def objcClassPat : List Char := "_OBJC_CLASS_$_".toList

/-- The `_OBJC_CATEGORY_$_` prefix. -/
def objcCategoryPat : List Char := "_OBJC_CATEGORY_$_".toList

/-- The `_OBJC_PROTOCOL_$_` prefix. -/
def objcProtocolPat : List Char := "_OBJC_PROTOCOL_$_".toList

/-- The `_OBJC_IVAR_$_` prefix. -/
def objcIvarPat : List Char := "_OBJC_IVAR_$_".toList

/-- The scan loop of `class_dump_analyze_classes`: the C advances by one
byte per iteration via `memchr` on the first pattern byte plus `strncmp`,
which is per-position prefix matching; the `remaining > pattern_len` loop
guard is evaluated at each position. -/
def class_dump_analyze_classes_go : List Char → class_dump_result_t → class_dump_result_t
  | [], r => r
  | s@(_ :: rest), r =>
    if s.length ≤ objcClassPat.length then r
    else
      let r1 :=
        if objcClassPat.isPrefixOf s then
          match class_dump_safe_strndup (s.drop objcClassPat.length)
              (s.length - objcClassPat.length) with
          | some name => add_class_to_result r (String.mk name)
          | none => r
        else r
      class_dump_analyze_classes_go rest r1

/-- `class_dump_analyze_classes`. -/
def class_dump_analyze_classes (data : List Char) (r : class_dump_result_t) :
    class_dump_result_t :=
  class_dump_analyze_classes_go data r

/-- The scan loop of `class_dump_analyze_categories`. -/
def class_dump_analyze_categories_go :
    List Char → class_dump_result_t → class_dump_result_t
  | [], r => r
  | s@(_ :: rest), r =>
    if s.length ≤ objcCategoryPat.length then r
    else
      let r1 :=
        if objcCategoryPat.isPrefixOf s then
          match class_dump_safe_strndup (s.drop objcCategoryPat.length)
              (s.length - objcCategoryPat.length) with
          | some raw =>
            match class_dump_split_category raw with
            | (cls?, some cat) =>
              let resolved :=
                match cls? with
                | some cl => if cl.length > 0 then String.mk cl else "NSObject"
                | none => "NSObject"
              class_dump_add_category_with_class r resolved (String.mk cat)
            | (_, none) => r
          | none => r
        else r
      class_dump_analyze_categories_go rest r1

/-- `class_dump_analyze_categories`. -/
def class_dump_analyze_categories (data : List Char) (r : class_dump_result_t) :
    class_dump_result_t :=
  class_dump_analyze_categories_go data r

/-- The scan loop of `class_dump_analyze_protocols`. -/
def class_dump_analyze_protocols_go :
    List Char → class_dump_result_t → class_dump_result_t
  | [], r => r
  | s@(_ :: rest), r =>
    if s.length ≤ objcProtocolPat.length then r
    else
      let r1 :=
        if objcProtocolPat.isPrefixOf s then
          match class_dump_safe_strndup (s.drop objcProtocolPat.length)
              (s.length - objcProtocolPat.length) with
          | some name => add_protocol_to_result r (String.mk name)
          | none => r
        else r
      class_dump_analyze_protocols_go rest r1

/-- `class_dump_analyze_protocols`. -/
def class_dump_analyze_protocols (data : List Char) (r : class_dump_result_t) :
    class_dump_result_t :=
  class_dump_analyze_protocols_go data r

/-- The scan loop of `class_dump_scan_ivars`: tail `Class.ivar` split on the
first dot; the class is auto-created when missing. -/
def class_dump_scan_ivars_go : List Char → class_dump_result_t → class_dump_result_t
  | [], r => r
  | s@(_ :: rest), r =>
    if s.length ≤ objcIvarPat.length then r
    else
      let r1 :=
        if objcIvarPat.isPrefixOf s then
          match class_dump_safe_strndup (s.drop objcIvarPat.length)
              (s.length - objcIvarPat.length) with
          | some full =>
            match breakAt '.' full with
            | some (cls, ivar) =>
              if cls ≠ [] ∧ ivar ≠ [] then
                class_dump_add_ivar_at (add_class_to_result r (String.mk cls))
                  (String.mk cls) (String.mk ivar)
              else r
            | none => r
          | none => r
        else r
      class_dump_scan_ivars_go rest r1

/-- `class_dump_scan_ivars`. -/
def class_dump_scan_ivars (data : List Char) (r : class_dump_result_t) :
    class_dump_result_t :=
  class_dump_scan_ivars_go data r

/-- The per-match body of `class_dump_scan_methods` (lines 182-235): `start`
is the suffix right after the `-[` / `+[` sigil and `c` the sign character. -/
def class_dump_scan_methods_match (c : Char) (start : List Char)
    (r : class_dump_result_t) : class_dump_result_t :=
  let maxLen := min start.length 200
  match breakAt ']' (start.take maxLen) with
  | none => r
  | some (contentRaw, _) =>
    let contentLen := contentRaw.length
    if contentLen = 0 ∨ contentLen ≥ 200 then r
    else
      match class_dump_safe_strndup start contentLen with
      | none => r
      | some content =>
        match breakAt ' ' content with
        | none => r
        | some (classPart, methodPart) =>
          if methodPart = [] then r
          else
            let pair : List Char × Option (List Char) :=
              match breakAt '(' classPart with
              | some (before, afterParen) =>
                match breakAt ')' afterParen with
                | some (between, _) =>
                  (before, class_dump_safe_strndup between between.length)
                | none => (classPart, none)
              | none => (classPart, none)
            if pair.1.length > 0 then
              let r1 := add_class_to_result r (String.mk pair.1)
              match pair.2 with
              | some cat =>
                if cat.length > 0 then
                  class_dump_add_method_to_category_at
                    (class_dump_add_category_with_class r1 (String.mk pair.1)
                      (String.mk cat))
                    (String.mk pair.1) (String.mk cat) (String.mk methodPart) (c == '+')
                else
                  class_dump_add_method_to_class_at r1 (String.mk pair.1)
                    (String.mk methodPart) (c == '+')
              | none =>
                class_dump_add_method_to_class_at r1 (String.mk pair.1)
                  (String.mk methodPart) (c == '+')
            else r

/-- The scan loop of `class_dump_scan_methods`
(`for (i = 0; i + 2 < binary_size; i++)`). -/
def class_dump_scan_methods_go : List Char → class_dump_result_t → class_dump_result_t
  | [], r => r
  | c :: rest, r =>
    if rest.length < 2 then r
    else
      let r1 :=
        if (c == '-' || c == '+') && rest.head? == some '[' then
          class_dump_scan_methods_match c (rest.drop 1) r
        else r
      class_dump_scan_methods_go rest r1

/-- `class_dump_scan_methods`. -/
def class_dump_scan_methods (data : List Char) (r : class_dump_result_t) :
    class_dump_result_t :=
  class_dump_scan_methods_go data r

/-- Occurrence count of a byte pattern, the counting loop of
`analyze_strings_for_objc`. -/
def countOccurrences (pat : List Char) : List Char → Nat
  | [] => 0
  | s@(_ :: rest) => (if pat.isPrefixOf s then 1 else 0) + countOccurrences pat rest

/-- The common-selector allow-list of `analyze_strings_for_objc`. -/
def objcSelectorPats : List (List Char) :=
  ["init".toList, "dealloc".toList, "alloc".toList, "retain".toList,
   "release".toList, "autorelease".toList, "copy".toList, "mutableCopy".toList,
   "description".toList, "debugDescription".toList]

/-- `analyze_strings_for_objc`: insert the three sample entities when any
common selector string occurs. -/
def analyze_strings_for_objc (data : List Char) (r : class_dump_result_t) :
    class_dump_result_t :=
  let found := (objcSelectorPats.map (fun p => countOccurrences p data)).sum
  if found > 0 then
    add_protocol_to_result
      (add_category_to_result (add_class_to_result r "SampleClass") "SampleCategory")
      "SampleProtocol"
  else r

/-- `class_dump_binary` minus the file I/O: the five scan passes over the
mapped bytes, then the string-analysis fallback when nothing was found. -/
def class_dump_binary (data : List Char) : class_dump_result_t :=
  let r0 : class_dump_result_t := { classes := [], categories := [], protocols := [] }
  let r5 := class_dump_scan_methods data
    (class_dump_scan_ivars data
      (class_dump_analyze_protocols data
        (class_dump_analyze_categories data
          (class_dump_analyze_classes data r0))))
  if r5.classes.length = 0 ∧ r5.categories.length = 0 ∧ r5.protocols.length = 0 then
    analyze_strings_for_objc data r5
  else r5

/-! ## TypeAnalyzerC.c: type reconstruction -/

/-- `c_type_category_t` (names as in TypeAnalyzerC.h). -/
inductive c_type_category_t where
  | C_TYPE_CATEGORY_CLASS
  | C_TYPE_CATEGORY_STRUCT
  | C_TYPE_CATEGORY_ENUM
  | C_TYPE_CATEGORY_PROTOCOL
  | C_TYPE_CATEGORY_UNKNOWN
deriving DecidableEq, Repr

/-- A `(name, address)` pair from the symbol-table collaborator. -/
structure SymbolInfo where
  name : String
  address : Nat
deriving DecidableEq, Repr

/-- `c_reconstructed_type_t`; the `double confidence` field carries only the
fixed constants of `c_confidence_for_symbol`, modelled as exact rationals. -/
structure c_reconstructed_type_t where
  name : String
  address : Nat
  size : Nat
  category : c_type_category_t
  confidence : Rat
deriving DecidableEq, Repr

/-- `c_is_class_symbol`. -/
def c_is_class_symbol (n : String) : Bool :=
  strstrB n "_OBJC_CLASS_$_" || strstrB n "_TtC" || strstrB n "objc_class"

/-- `c_is_struct_symbol`. -/
def c_is_struct_symbol (n : String) : Bool :=
  strstrB n "struct" || strstrB n "Struct" || strstrB n "_struct_"

/-- `c_is_enum_symbol`. -/
def c_is_enum_symbol (n : String) : Bool :=
  strstrB n "enum" || strstrB n "Enum" || strstrB n "_enum_"

/-- `c_is_protocol_symbol`. -/
def c_is_protocol_symbol (n : String) : Bool :=
  strstrB n "protocol" || strstrB n "Protocol" || strstrB n "_protocol_"

/-- `c_extract_class_name`: drops the first 14 characters whenever the ObjC
class prefix occurs anywhere in the name, as the source does. -/
def c_extract_class_name (n : String) : String :=
  if strstrB n "_OBJC_CLASS_$_" then String.mk (n.toList.drop 14) else n

/-- `c_extract_struct_name`. -/
def c_extract_struct_name (n : String) : String :=
  if strstrB n "_struct_" then String.mk (n.toList.drop 8) else n

/-- `c_extract_enum_name`. -/
def c_extract_enum_name (n : String) : String :=
  if strstrB n "_enum_" then String.mk (n.toList.drop 6) else n

/-- `c_extract_protocol_name`. -/
def c_extract_protocol_name (n : String) : String :=
  if strstrB n "_protocol_" then String.mk (n.toList.drop 10) else n

/-- `c_estimate_class_size`. -/
def c_estimate_class_size (n : String) : Nat :=
  if strstrB n "View" || strstrB n "Controller" then 200
  else if strstrB n "Model" then 100
  else if strstrB n "Manager" then 150
  else 64

/-- `c_estimate_struct_size`. -/
def c_estimate_struct_size (n : String) : Nat :=
  if strstrB n "Point" || strstrB n "Size" then 16
  else if strstrB n "Rect" then 32
  else if strstrB n "Range" then 16
  else 24

/-- `c_estimate_enum_size`. -/
def c_estimate_enum_size (n : String) : Nat :=
  if strstrB n "Int" || strstrB n "Raw" then 8 else 4

/-- `c_estimated_size_for_category`. -/
def c_estimated_size_for_category (n : String) (cat : c_type_category_t) : Nat :=
  match cat with
  | .C_TYPE_CATEGORY_CLASS => c_estimate_class_size n
  | .C_TYPE_CATEGORY_STRUCT => c_estimate_struct_size n
  | .C_TYPE_CATEGORY_ENUM => c_estimate_enum_size n
  | _ => 0

/-- `c_confidence_for_symbol`. -/
def c_confidence_for_symbol (n : String) (cat : c_type_category_t) : Rat :=
  if strstrB n "_OBJC_CLASS_$_" then 9 / 10
  else if cat = .C_TYPE_CATEGORY_CLASS ∧ (strstrB n "_TtC" || strstrB n "_Tt") then
    85 / 100
  else if cat = .C_TYPE_CATEGORY_ENUM ∨ cat = .C_TYPE_CATEGORY_STRUCT then 75 / 100
  else if cat = .C_TYPE_CATEGORY_PROTOCOL then 7 / 10
  else 6 / 10

/-- The category test and name extraction applied to one symbol name, the
`if/else if` chain of the reconstruction loop (lines 424-436). -/
def c_symbol_type_name (n : String) : c_type_category_t × Option String :=
  if c_is_class_symbol n then (.C_TYPE_CATEGORY_CLASS, some (c_extract_class_name n))
  else if c_is_struct_symbol n then
    (.C_TYPE_CATEGORY_STRUCT, some (c_extract_struct_name n))
  else if c_is_enum_symbol n then (.C_TYPE_CATEGORY_ENUM, some (c_extract_enum_name n))
  else if c_is_protocol_symbol n then
    (.C_TYPE_CATEGORY_PROTOCOL, some (c_extract_protocol_name n))
  else (.C_TYPE_CATEGORY_UNKNOWN, none)

/-- `c_reconstruction_has_name`. -/
def c_reconstruction_has_name (types : List c_reconstructed_type_t) (name : String) :
    Bool :=
  types.any (fun t => t.name == name)

/-- One iteration of the reconstruction loop of
`c_reconstruct_types_from_binary` (lines 417-465). -/
def c_reconstruct_step (acc : List c_reconstructed_type_t) (sym : SymbolInfo) :
    List c_reconstructed_type_t :=
  if sym.name = "" then acc
  else
    match c_symbol_type_name sym.name with
    | (_, none) => acc
    | (category, some tn) =>
      if tn = "" then acc
      else if c_reconstruction_has_name acc tn then acc
      else acc ++ [{ name := tn, address := sym.address,
                     size := c_estimated_size_for_category tn category,
                     category := category,
                     confidence := c_confidence_for_symbol sym.name category }]

/-- `c_reconstruct_types_from_binary` minus the Mach-O and symbol-table
collaborators (spec section 6): the loop over the parsed symbol list. -/
def c_reconstruct_types_from_binary (syms : List SymbolInfo) :
    List c_reconstructed_type_t :=
  syms.foldl c_reconstruct_step []

def c7data : List Char :=
  "_OBJC_CLASS_$_Foo".toList ++ [Char.ofNat 0] ++
  "_OBJC_CATEGORY_$_Foo_$_Bar".toList ++ [Char.ofNat 0] ++
  "_OBJC_IVAR_$_Foo.counter".toList ++ [Char.ofNat 0] ++
  "-[Foo tick]".toList ++ [Char.ofNat 0]

/-! ## Theorems: the decoder claims -/

/-- Facts about a decoded record shared by the proofs of several claims. -/
def InstOK (bytes address : Nat) (r : DisassembledInstruction) : Prop :=
  ((r.mnemonic = "BL" ∨ r.mnemonic = "BLR") → r.regs_written.testBit 30 = true) ∧
  (r.mnemonic = "RET" → r.branch_type = .BRANCH_RETURN) ∧
  (r.is_valid = true → r.mnemonic ≠ "") ∧
  (r.has_branch_target = true → r.is_valid = true ∧ r.mnemonic ≠ "ORR") ∧
  (r.has_branch_target = true → r.mnemonic = "ADRP" →
      r.branch_target =
        u64 (((address &&& 0xFFFFFFFFFFFFF000 : Nat) : Int) + r.branch_offset)) ∧
  (r.has_branch_target = true → r.mnemonic ≠ "ADRP" →
      r.branch_target = u64 ((address : Int) + r.branch_offset)) ∧
  (r.is_valid = false → r = zeroInst bytes address)

lemma condition_string_cases (c : Nat) :
    arm64_condition_string c ∈ condTable ∨ arm64_condition_string c = "??" := by
  unfold arm64_condition_string
  split
  · next h =>
    left
    have hc : c < condTable.length := by simpa [condTable] using h
    rw [List.getD_eq_getElem _ _ hc]
    exact List.getElem_mem hc
  · right; rfl

lemma bcond_props (c : Nat) :
    "B." ++ arm64_condition_string c ≠ "BL" ∧
    "B." ++ arm64_condition_string c ≠ "BLR" ∧
    "B." ++ arm64_condition_string c ≠ "RET" ∧
    "B." ++ arm64_condition_string c ≠ "" ∧
    "B." ++ arm64_condition_string c ≠ "ORR" ∧
    "B." ++ arm64_condition_string c ≠ "ADRP" := by
  have h := condition_string_cases c
  generalize arm64_condition_string c = s at h ⊢
  rcases h with h | h
  · fin_cases h <;> decide
  · rw [h]; decide

lemma instok_zero (bytes address : Nat) :
    InstOK bytes address (zeroInst bytes address) := by
  dsimp only [InstOK, zeroInst]
  refine ⟨fun h => ?_, fun h => ?_, fun h => ?_, fun h => ?_, fun h h2 => ?_,
          fun h h2 => ?_, fun h => rfl⟩ <;>
    first
      | (revert h; decide)
      | (exact absurd h (by decide))

lemma instok_b_bl (bytes address : Nat) :
    InstOK bytes address (arm64_dec_b_bl bytes address) := by
  dsimp only [InstOK, arm64_dec_b_bl, zeroInst]
  split_ifs <;> (try dsimp only []) <;>
    refine ⟨fun h => ?_, fun h => ?_, fun h => ?_, fun h => ?_, fun h h2 => ?_,
            fun h h2 => ?_, fun h => ?_⟩ <;>
    first
      | rfl
      | decide
      | (revert h; decide)
      | (exact absurd h (by decide))
      | (exact absurd h2 (by decide))

lemma instok_adr (bytes address : Nat) :
    InstOK bytes address (arm64_dec_adr bytes address) := by
  dsimp only [InstOK, arm64_dec_adr, zeroInst]
  split_ifs <;> (try dsimp only []) <;>
    refine ⟨fun h => ?_, fun h => ?_, fun h => ?_, fun h => ?_, fun h h2 => ?_,
            fun h h2 => ?_, fun h => ?_⟩ <;>
    first
      | rfl
      | decide
      | (revert h; decide)
      | (exact absurd h (by decide))
      | (exact absurd h2 (by decide))

lemma instok_br_group (bytes address : Nat) :
    InstOK bytes address (arm64_dec_br_group bytes address) := by
  dsimp only [InstOK, arm64_dec_br_group, zeroInst]
  split_ifs <;> (try dsimp only []) <;>
    refine ⟨fun h => ?_, fun h => ?_, fun h => ?_, fun h => ?_, fun h h2 => ?_,
            fun h h2 => ?_, fun h => ?_⟩ <;>
    first
      | rfl
      | decide
      | (revert h; decide)
      | (exact absurd h (by decide))
      | (exact absurd h2 (by decide))

lemma instok_ldp_stp (bytes address : Nat) :
    InstOK bytes address (arm64_dec_ldp_stp bytes address) := by
  dsimp only [InstOK, arm64_dec_ldp_stp, zeroInst]
  split_ifs <;> (try dsimp only []) <;>
    refine ⟨fun h => ?_, fun h => ?_, fun h => ?_, fun h => ?_, fun h h2 => ?_,
            fun h h2 => ?_, fun h => ?_⟩ <;>
    first
      | rfl
      | decide
      | (revert h; decide)
      | (exact absurd h (by decide))
      | (exact absurd h2 (by decide))

lemma instok_addsub_movw (bytes address : Nat) :
    InstOK bytes address (arm64_dec_addsub_movw bytes address) := by
  dsimp only [InstOK, arm64_dec_addsub_movw, zeroInst]
  split_ifs <;> (try dsimp only []) <;>
    refine ⟨fun h => ?_, fun h => ?_, fun h => ?_, fun h => ?_, fun h h2 => ?_,
            fun h h2 => ?_, fun h => ?_⟩ <;>
    first
      | rfl
      | decide
      | (revert h; decide)
      | (exact absurd h (by decide))
      | (exact absurd h2 (by decide))

lemma instok_condbr_group (bytes address : Nat) :
    InstOK bytes address (arm64_dec_condbr_group bytes address) := by
  dsimp only [InstOK, arm64_dec_condbr_group, zeroInst]
  split_ifs <;> (try dsimp only []) <;>
    refine ⟨fun h => ?_, fun h => ?_, fun h => ?_, fun h => ?_, fun h h2 => ?_,
            fun h h2 => ?_, fun h => ?_⟩ <;>
    first
      | rfl
      | decide
      | (revert h; decide)
      | (exact absurd h (by decide))
      | (exact absurd h2 (by decide))
      | (exact absurd h (bcond_props _).2.2.1)
      | (exact ⟨rfl, (bcond_props _).2.2.2.2.1⟩)
      | (exact (bcond_props _).2.2.2.1)
      | (exact absurd h2 (bcond_props _).2.2.2.2.2)
      | (rcases h with h | h
         · exact absurd h (bcond_props _).1
         · exact absurd h (bcond_props _).2.1)

lemma instok_ldst_group (bytes address : Nat) :
    InstOK bytes address (arm64_dec_ldst_group bytes address) := by
  dsimp only [InstOK, arm64_dec_ldst_group, zeroInst]
  split_ifs <;> (try dsimp only []) <;>
    refine ⟨fun h => ?_, fun h => ?_, fun h => ?_, fun h => ?_, fun h h2 => ?_,
            fun h h2 => ?_, fun h => ?_⟩ <;>
    first
      | rfl
      | decide
      | (revert h; decide)
      | (exact absurd h (by decide))
      | (exact absurd h2 (by decide))

lemma instok_logical_group (bytes address : Nat) :
    InstOK bytes address (arm64_dec_logical_group bytes address) := by
  dsimp only [InstOK, arm64_dec_logical_group, zeroInst]
  split_ifs <;> (try dsimp only []) <;>
    refine ⟨fun h => ?_, fun h => ?_, fun h => ?_, fun h => ?_, fun h h2 => ?_,
            fun h h2 => ?_, fun h => ?_⟩ <;>
    first
      | rfl
      | decide
      | (revert h; decide)
      | (exact absurd h (by decide))
      | (exact absurd h2 (by decide))

lemma instok_cmp_group (bytes address : Nat) :
    InstOK bytes address (arm64_dec_cmp_group bytes address) := by
  dsimp only [InstOK, arm64_dec_cmp_group, zeroInst]
  split_ifs <;> (try dsimp only []) <;>
    refine ⟨fun h => ?_, fun h => ?_, fun h => ?_, fun h => ?_, fun h h2 => ?_,
            fun h h2 => ?_, fun h => ?_⟩ <;>
    first
      | rfl
      | decide
      | (revert h; decide)
      | (exact absurd h (by decide))
      | (exact absurd h2 (by decide))

lemma instok_shift (bytes address : Nat) :
    InstOK bytes address (arm64_dec_shift bytes address) := by
  dsimp only [InstOK, arm64_dec_shift, zeroInst]
  split_ifs <;> (try dsimp only []) <;>
    refine ⟨fun h => ?_, fun h => ?_, fun h => ?_, fun h => ?_, fun h h2 => ?_,
            fun h h2 => ?_, fun h => ?_⟩ <;>
    first
      | rfl
      | decide
      | (revert h; decide)
      | (exact absurd h (by decide))
      | (exact absurd h2 (by decide))

lemma instok_ccmp (bytes address : Nat) :
    InstOK bytes address (arm64_dec_ccmp bytes address) := by
  dsimp only [InstOK, arm64_dec_ccmp, zeroInst]
  refine ⟨fun h => ?_, fun h => ?_, fun h => ?_, fun h => ?_, fun h h2 => ?_,
          fun h h2 => ?_, fun h => ?_⟩ <;>
    first
      | rfl
      | decide
      | (revert h; decide)
      | (exact absurd h (by decide))
      | (exact absurd h2 (by decide))

lemma instok_nop (bytes address : Nat) :
    InstOK bytes address (arm64_dec_nop bytes address) := by
  dsimp only [InstOK, arm64_dec_nop, zeroInst]
  refine ⟨fun h => ?_, fun h => ?_, fun h => ?_, fun h => ?_, fun h h2 => ?_,
          fun h h2 => ?_, fun h => ?_⟩ <;>
    first
      | rfl
      | decide
      | (revert h; decide)
      | (exact absurd h (by decide))
      | (exact absurd h2 (by decide))

lemma instok_hint (bytes address : Nat) :
    InstOK bytes address (arm64_dec_hint bytes address) := by
  dsimp only [InstOK, arm64_dec_hint, zeroInst]
  split_ifs <;> (try dsimp only []) <;>
    refine ⟨fun h => ?_, fun h => ?_, fun h => ?_, fun h => ?_, fun h h2 => ?_,
            fun h h2 => ?_, fun h => ?_⟩ <;>
    first
      | rfl
      | decide
      | (revert h; decide)
      | (exact absurd h (by decide))
      | (exact absurd h2 (by decide))

lemma instok_barrier (bytes address : Nat) :
    InstOK bytes address (arm64_dec_barrier bytes address) := by
  dsimp only [InstOK, arm64_dec_barrier, zeroInst]
  split_ifs <;> (try dsimp only []) <;>
    refine ⟨fun h => ?_, fun h => ?_, fun h => ?_, fun h => ?_, fun h h2 => ?_,
            fun h h2 => ?_, fun h => ?_⟩ <;>
    first
      | rfl
      | decide
      | (revert h; decide)
      | (exact absurd h (by decide))
      | (exact absurd h2 (by decide))

lemma instok_mrs_msr (bytes address : Nat) :
    InstOK bytes address (arm64_dec_mrs_msr bytes address) := by
  dsimp only [InstOK, arm64_dec_mrs_msr, zeroInst]
  split_ifs <;> (try dsimp only []) <;>
    refine ⟨fun h => ?_, fun h => ?_, fun h => ?_, fun h => ?_, fun h h2 => ?_,
            fun h h2 => ?_, fun h => ?_⟩ <;>
    first
      | rfl
      | decide
      | (revert h; decide)
      | (exact absurd h (by decide))
      | (exact absurd h2 (by decide))

lemma instok_fb_ldst (bytes address : Nat) :
    InstOK bytes address (arm64_fb_ldst bytes (zeroInst bytes address)) := by
  dsimp only [InstOK, arm64_fb_ldst, zeroInst]
  split_ifs <;> (try dsimp only []) <;>
    refine ⟨fun h => ?_, fun h => ?_, fun h => ?_, fun h => ?_, fun h h2 => ?_,
            fun h h2 => ?_, fun h => ?_⟩ <;>
    first
      | rfl
      | decide
      | (revert h; decide)
      | (exact absurd h (by decide))
      | (exact absurd h2 (by decide))

lemma instok_fb_dp3 (bytes address : Nat) :
    InstOK bytes address (arm64_fb_dp3 bytes (zeroInst bytes address)) := by
  dsimp only [InstOK, arm64_fb_dp3, zeroInst]
  refine ⟨fun h => ?_, fun h => ?_, fun h => ?_, fun h => ?_, fun h h2 => ?_,
          fun h h2 => ?_, fun h => ?_⟩ <;>
    first
      | rfl
      | decide
      | (revert h; decide)
      | (exact absurd h (by decide))
      | (exact absurd h2 (by decide))

lemma instok_fb_dpreg (bytes address : Nat) :
    InstOK bytes address (arm64_fb_dpreg bytes (zeroInst bytes address)) := by
  dsimp only [InstOK, arm64_fb_dpreg, zeroInst]
  refine ⟨fun h => ?_, fun h => ?_, fun h => ?_, fun h => ?_, fun h h2 => ?_,
          fun h h2 => ?_, fun h => ?_⟩ <;>
    first
      | rfl
      | decide
      | (revert h; decide)
      | (exact absurd h (by decide))
      | (exact absurd h2 (by decide))

lemma cascade_ok (bytes address : Nat) :
    InstOK bytes address (arm64_cascade bytes address) := by
  have key : ∀ r, r = arm64_cascade bytes address → InstOK bytes address r := by
    intro r hr
    rw [arm64_cascade] at hr
    try dsimp only [] at hr
    by_cases h1 : (bytes >>> 26) &&& 0x3F = 0x5 ∨ (bytes >>> 26) &&& 0x3F = 0x25
    · rw [if_pos h1] at hr; exact hr ▸ instok_b_bl bytes address
    rw [if_neg h1] at hr
    by_cases h2 : bytes &&& 0x9F000000 = 0x10000000 ∨ bytes &&& 0x9F000000 = 0x90000000
    · rw [if_pos h2] at hr; exact hr ▸ instok_adr bytes address
    rw [if_neg h2] at hr
    by_cases h3 : 0x6B0 ≤ (bytes >>> 21) &&& 0x7FF ∧ (bytes >>> 21) &&& 0x7FF ≤ 0x6B3
    · rw [if_pos h3] at hr; exact hr ▸ instok_br_group bytes address
    rw [if_neg h3] at hr
    by_cases h4 : 0x290 ≤ (bytes >>> 22) &&& 0x3FF ∧ (bytes >>> 22) &&& 0x3FF ≤ 0x2BF
    · rw [if_pos h4] at hr; exact hr ▸ instok_ldp_stp bytes address
    rw [if_neg h4] at hr
    by_cases h5 : (bytes >>> 25) &&& 0xF &&& 0x8 = 0x8
    · rw [if_pos h5] at hr; exact hr ▸ instok_addsub_movw bytes address
    rw [if_neg h5] at hr
    by_cases h6 : (bytes >>> 25) &&& 0xF &&& 0xE = 0xA
    · rw [if_pos h6] at hr; exact hr ▸ instok_condbr_group bytes address
    rw [if_neg h6] at hr
    by_cases h7 : (bytes >>> 25) &&& 0xF &&& 0xB = 0x8
    · rw [if_pos h7] at hr; exact hr ▸ instok_ldst_group bytes address
    rw [if_neg h7] at hr
    rw [if_neg h6] at hr
    by_cases h9 : (bytes >>> 24) &&& 0xFF = 0xF1 ∨ (bytes >>> 24) &&& 0xFF = 0x71 ∨
        (bytes >>> 24) &&& 0xFF = 0xEB ∨ (bytes >>> 24) &&& 0xFF = 0x6B
    · rw [if_pos h9] at hr; exact hr ▸ instok_cmp_group bytes address
    rw [if_neg h9] at hr
    by_cases h10 : 0x69A ≤ (bytes >>> 21) &&& 0x7FF ∧ (bytes >>> 21) &&& 0x7FF ≤ 0x69F
    · rw [if_pos h10] at hr; exact hr ▸ instok_shift bytes address
    rw [if_neg h10] at hr
    by_cases h11 : 0x3A2 ≤ (bytes >>> 21) &&& 0x7FF ∧ (bytes >>> 21) &&& 0x7FF ≤ 0x3A3
    · rw [if_pos h11] at hr; exact hr ▸ instok_ccmp bytes address
    rw [if_neg h11] at hr
    by_cases h12 : bytes = 0xD503201F
    · rw [if_pos h12] at hr; exact hr ▸ instok_nop bytes address
    rw [if_neg h12] at hr
    by_cases h13 : bytes >>> 12 = 0xD503301
    · rw [if_pos h13] at hr; exact hr ▸ instok_hint bytes address
    rw [if_neg h13] at hr
    by_cases h14 : bytes >>> 12 = 0xD503309
    · rw [if_pos h14] at hr; exact hr ▸ instok_barrier bytes address
    rw [if_neg h14] at hr
    by_cases h15 : bytes >>> 21 = 0x6A1
    · rw [if_pos h15] at hr; exact hr ▸ instok_mrs_msr bytes address
    rw [if_neg h15] at hr
    exact hr ▸ instok_zero bytes address
  exact key _ rfl

lemma fallback_cases (bytes address : Nat) :
    arm64_fallback bytes (arm64_cascade bytes address) =
        (arm64_fb_fmov bytes (zeroInst bytes address), true) ∨
    ((arm64_fallback bytes (arm64_cascade bytes address)).2 = false ∧
     InstOK bytes address (arm64_fallback bytes (arm64_cascade bytes address)).1) := by
  have hc := cascade_ok bytes address
  have key : ∀ p, p = arm64_fallback bytes (arm64_cascade bytes address) →
      p = (arm64_fb_fmov bytes (zeroInst bytes address), true) ∨
      (p.2 = false ∧ InstOK bytes address p.1) := by
    intro p hp
    rw [arm64_fallback] at hp
    cases hval : (arm64_cascade bytes address).is_valid with
    | true =>
      rw [hval, if_pos rfl] at hp
      right; rw [hp]; exact ⟨rfl, hc⟩
    | false =>
      have hz := hc.2.2.2.2.2.2 hval
      rw [hval, if_neg Bool.false_ne_true] at hp
      rw [hz] at hp
      try dsimp only [] at hp
      by_cases h1 : (bytes >>> 25) &&& 0xF &&& 0xB = 0x8 ∨ (bytes >>> 25) &&& 0xF &&& 0xB = 0x9
      · rw [if_pos h1] at hp
        right; rw [hp]; exact ⟨rfl, instok_fb_ldst bytes address⟩
      rw [if_neg h1] at hp
      by_cases h2 : (bytes >>> 25) &&& 0xF = 0xB
      · rw [if_pos h2] at hp
        right; rw [hp]; exact ⟨rfl, instok_fb_dp3 bytes address⟩
      rw [if_neg h2] at hp
      by_cases h3 : (bytes >>> 25) &&& 0xF &&& 0x7 = 0x7 ∨ (bytes >>> 25) &&& 0xF &&& 0xE = 0xE
      · rw [if_pos h3] at hp
        by_cases h4 : (bytes >>> 21) &&& 0x7FF = 0x3C0
        · rw [if_pos h4] at hp
          left; rw [hp]
        · rw [if_neg h4] at hp
          right; rw [hp]
          refine ⟨rfl, ?_⟩
          dsimp only [InstOK, zeroInst]
          refine ⟨fun h => ?_, fun h => ?_, fun h => ?_, fun h => ?_, fun h h2 => ?_,
                  fun h h2 => ?_, fun h => ?_⟩ <;>
            first
              | rfl
              | decide
              | (revert h; decide)
              | (exact absurd h (by decide))
              | (exact absurd h2 (by decide))
      rw [if_neg h3] at hp
      by_cases h5 : (bytes >>> 25) &&& 0xF &&& 0xE = 0xA
      · rw [if_pos h5] at hp
        right; rw [hp]; exact ⟨rfl, instok_fb_dpreg bytes address⟩
      rw [if_neg h5] at hp
      by_cases h6 : (bytes >>> 25) &&& 0xF = 0xD
      · rw [if_pos h6] at hp
        right; rw [hp]
        refine ⟨rfl, ?_⟩
        dsimp only [InstOK, zeroInst]
        refine ⟨fun h => ?_, fun h => ?_, fun h => ?_, fun h => ?_, fun h h2 => ?_,
                fun h h2 => ?_, fun h => ?_⟩ <;>
          first
            | rfl
            | decide
            | (revert h; decide)
            | (exact absurd h (by decide))
            | (exact absurd h2 (by decide))
      rw [if_neg h6] at hp
      right; rw [hp]; exact ⟨rfl, instok_zero bytes address⟩
  exact key _ rfl

lemma orr_rewrite_of_ne (r : DisassembledInstruction)
    (h : ¬(r.is_valid = true ∧ r.mnemonic = "ORR")) : orr_rewrite r = r := by
  rw [orr_rewrite, if_neg h]

lemma orr_rewrite_cases (r : DisassembledInstruction) :
    orr_rewrite r = r ∨
    (r.mnemonic = "ORR" ∧ ∃ ops, orr_rewrite r =
      { r with mnemonic := "MOV", operands := ops,
               category := .INST_CATEGORY_DATA_PROCESSING }) := by
  by_cases h : r.is_valid = true ∧ r.mnemonic = "ORR"
  · rw [orr_rewrite, if_pos h]
    repeat' first
      | split
      | (dsimp only [])
    all_goals first
      | exact Or.inl rfl
      | exact Or.inr ⟨h.2, _, rfl⟩
  · exact Or.inl (orr_rewrite_of_ne r h)

lemma word_fallback_of_valid (bytes : Nat) (r : DisassembledInstruction)
    (h : r.is_valid = true) : word_fallback bytes r = r := by
  rw [word_fallback, if_pos h]

lemma word_fallback_of_invalid (bytes : Nat) (r : DisassembledInstruction)
    (h : r.is_valid = false) :
    word_fallback bytes r =
      { r with mnemonic := ".word", operands := "0x" ++ hexUpper8 bytes,
               category := .INST_CATEGORY_UNKNOWN, is_valid := true } := by
  rw [word_fallback, if_neg (fun hh => Bool.false_ne_true (h ▸ hh))]

lemma orr_is_valid (r : DisassembledInstruction) :
    (orr_rewrite r).is_valid = r.is_valid := by
  rcases orr_rewrite_cases r with h | ⟨_, ops, h⟩ <;> rw [h]

lemma finish_fields (flag : Bool) (bytes : Nat) (r : DisassembledInstruction) :
    (arm64_finish flag bytes r).regs_written = r.regs_written ∧
    (arm64_finish flag bytes r).branch_type = r.branch_type ∧
    (arm64_finish flag bytes r).branch_target = r.branch_target ∧
    (arm64_finish flag bytes r).branch_offset = r.branch_offset ∧
    (arm64_finish flag bytes r).has_branch_target = r.has_branch_target ∧
    (arm64_finish flag bytes r).flags_written = r.flags_written ∧
    (arm64_finish flag bytes r).is_valid = true := by
  have hw : ∀ s : DisassembledInstruction,
      (word_fallback bytes s).regs_written = s.regs_written ∧
      (word_fallback bytes s).branch_type = s.branch_type ∧
      (word_fallback bytes s).branch_target = s.branch_target ∧
      (word_fallback bytes s).branch_offset = s.branch_offset ∧
      (word_fallback bytes s).has_branch_target = s.has_branch_target ∧
      (word_fallback bytes s).flags_written = s.flags_written ∧
      (word_fallback bytes s).is_valid = true := by
    intro s
    cases hv : s.is_valid with
    | true => rw [word_fallback_of_valid bytes s hv]; exact ⟨rfl, rfl, rfl, rfl, rfl, rfl, hv⟩
    | false => rw [word_fallback_of_invalid bytes s hv]; exact ⟨rfl, rfl, rfl, rfl, rfl, rfl, rfl⟩
  have ho : ∀ s : DisassembledInstruction,
      (orr_rewrite s).regs_written = s.regs_written ∧
      (orr_rewrite s).branch_type = s.branch_type ∧
      (orr_rewrite s).branch_target = s.branch_target ∧
      (orr_rewrite s).branch_offset = s.branch_offset ∧
      (orr_rewrite s).has_branch_target = s.has_branch_target ∧
      (orr_rewrite s).flags_written = s.flags_written := by
    intro s
    rcases orr_rewrite_cases s with h | ⟨_, ops, h⟩ <;> rw [h] <;>
      exact ⟨rfl, rfl, rfl, rfl, rfl, rfl⟩
  obtain ⟨w1, w2, w3, w4, w5, w6, w7⟩ := hw (orr_rewrite r)
  obtain ⟨o1, o2, o3, o4, o5, o6⟩ := ho r
  refine ⟨?_, ?_, ?_, ?_, ?_, ?_, ?_⟩ <;>
    first
      | (show (word_fallback bytes (orr_rewrite r)).regs_written = _ ; rw [w1, o1])
      | (show (word_fallback bytes (orr_rewrite r)).branch_type = _ ; rw [w2, o2])
      | (show (word_fallback bytes (orr_rewrite r)).branch_target = _ ; rw [w3, o3])
      | (show (word_fallback bytes (orr_rewrite r)).branch_offset = _ ; rw [w4, o4])
      | (show (word_fallback bytes (orr_rewrite r)).has_branch_target = _ ; rw [w5, o5])
      | (show (word_fallback bytes (orr_rewrite r)).flags_written = _ ; rw [w6, o6])
      | (show (word_fallback bytes (orr_rewrite r)).is_valid = true ; exact w7)

lemma finish_mnemonic_cases (flag : Bool) (bytes : Nat) (r : DisassembledInstruction) :
    (r.is_valid = true →
       (arm64_finish flag bytes r).mnemonic = r.mnemonic ∨
       (r.mnemonic = "ORR" ∧ (arm64_finish flag bytes r).mnemonic = "MOV")) ∧
    (r.is_valid = false →
       (arm64_finish flag bytes r).mnemonic = ".word" ∧
       (arm64_finish flag bytes r).operands = "0x" ++ hexUpper8 bytes ∧
       (arm64_finish flag bytes r).category = .INST_CATEGORY_UNKNOWN) := by
  constructor
  · intro hv
    rcases orr_rewrite_cases r with h | ⟨hm, ops, h⟩
    · left
      show (word_fallback bytes (orr_rewrite r)).mnemonic = r.mnemonic
      rw [h, word_fallback_of_valid bytes r hv]
    · right
      refine ⟨hm, ?_⟩
      show (word_fallback bytes (orr_rewrite r)).mnemonic = "MOV"
      have hv2 : (orr_rewrite r).is_valid = true := by rw [orr_is_valid]; exact hv
      rw [word_fallback_of_valid bytes _ hv2, h]
  · intro hv
    have hne : ¬(r.is_valid = true ∧ r.mnemonic = "ORR") := fun hh =>
      Bool.false_ne_true (hv ▸ hh.1)
    have h1 : orr_rewrite r = r := orr_rewrite_of_ne r hne
    refine ⟨?_, ?_, ?_⟩ <;>
      first
        | (show (word_fallback bytes (orr_rewrite r)).mnemonic = _ ;
           rw [h1, word_fallback_of_invalid bytes r hv])
        | (show (word_fallback bytes (orr_rewrite r)).operands = _ ;
           rw [h1, word_fallback_of_invalid bytes r hv])
        | (show (word_fallback bytes (orr_rewrite r)).category = _ ;
           rw [h1, word_fallback_of_invalid bytes r hv])

lemma finish_fun_start (flag : Bool) (bytes : Nat) (r : DisassembledInstruction) :
    (arm64_finish flag bytes r).is_function_start =
      arm64_is_prologue flag (arm64_finish flag bytes r) := rfl

lemma finish_fun_end (flag : Bool) (bytes : Nat) (r : DisassembledInstruction) :
    (arm64_finish flag bytes r).is_function_end =
      arm64_is_epilogue flag (arm64_finish flag bytes r) := rfl

lemma disasm_arm64_cases (flag : Bool) (bytes address : Nat) :
    (arm64_fallback bytes (arm64_cascade bytes address) =
        (arm64_fb_fmov bytes (zeroInst bytes address), true) ∧
     disasm_arm64 flag bytes address = arm64_fb_fmov bytes (zeroInst bytes address)) ∨
    (InstOK bytes address (arm64_fallback bytes (arm64_cascade bytes address)).1 ∧
     disasm_arm64 flag bytes address =
       arm64_finish flag bytes (arm64_fallback bytes (arm64_cascade bytes address)).1) := by
  rcases fallback_cases bytes address with h | ⟨h2, hOK⟩
  · left
    refine ⟨h, ?_⟩
    rw [disasm_arm64]
    try dsimp only []
    rw [h]
    rfl
  · right
    refine ⟨hOK, ?_⟩
    rw [disasm_arm64]
    try dsimp only []
    rw [h2, if_neg Bool.false_ne_true]

lemma fmov_facts (bytes address : Nat) :
    (arm64_fb_fmov bytes (zeroInst bytes address)).mnemonic = "FMOV" ∧
    (arm64_fb_fmov bytes (zeroInst bytes address)).is_valid = true ∧
    (arm64_fb_fmov bytes (zeroInst bytes address)).has_branch_target = false ∧
    (arm64_fb_fmov bytes (zeroInst bytes address)).is_function_start = false ∧
    (arm64_fb_fmov bytes (zeroInst bytes address)).is_function_end = false :=
  ⟨rfl, rfl, rfl, rfl, rfl⟩

theorem c2_decoder_total (flag : Bool) (bytes address : Nat) :
    (disasm_arm64 flag bytes address).is_valid = true ∧
    (disasm_arm64 flag bytes address).mnemonic ≠ "" ∧
    ((arm64_fallback bytes (arm64_cascade bytes address)).1.is_valid = false →
      (disasm_arm64 flag bytes address).mnemonic = ".word" ∧
      (disasm_arm64 flag bytes address).operands = "0x" ++ hexUpper8 bytes ∧
      (disasm_arm64 flag bytes address).category = .INST_CATEGORY_UNKNOWN) := by
  rcases disasm_arm64_cases flag bytes address with ⟨hf, hE⟩ | ⟨hOK, hD⟩
  · rw [hE]
    refine ⟨(fmov_facts bytes address).2.1, ?_, ?_⟩
    · rw [(fmov_facts bytes address).1]; decide
    · intro hinv
      rw [hf] at hinv
      exact absurd ((fmov_facts bytes address).2.1.symm.trans hinv) (by decide)
  · rw [hD]
    obtain ⟨-, -, -, -, -, -, f7⟩ :=
      finish_fields flag bytes (arm64_fallback bytes (arm64_cascade bytes address)).1
    refine ⟨f7, ?_, ?_⟩
    · cases hv : (arm64_fallback bytes (arm64_cascade bytes address)).1.is_valid with
      | true =>
        rcases (finish_mnemonic_cases flag bytes _).1 hv with hm | ⟨-, hm⟩
        · rw [hm]; exact hOK.2.2.1 hv
        · rw [hm]; decide
      | false =>
        obtain ⟨hm, -, -⟩ := (finish_mnemonic_cases flag bytes _).2 hv
        rw [hm]; decide
    · intro hinv
      exact (finish_mnemonic_cases flag bytes _).2 hinv

theorem c5_prologue_epilogue (flag : Bool) (bytes address : Nat) :
    ((disasm_arm64 flag bytes address).mnemonic = "RET" →
      (disasm_arm64 flag bytes address).is_function_end = true) ∧
    (flag = true →
      (disasm_arm64 flag bytes address).mnemonic = "STP" →
      strstrB (disasm_arm64 flag bytes address).operands "X29" = true →
      strstrB (disasm_arm64 flag bytes address).operands "X30" = true →
      strstrB (disasm_arm64 flag bytes address).operands "#-" = true →
      (disasm_arm64 flag bytes address).is_function_start = true) ∧
    (flag = true →
      (disasm_arm64 flag bytes address).mnemonic = "LDP" →
      strstrB (disasm_arm64 flag bytes address).operands "X29" = true →
      strstrB (disasm_arm64 flag bytes address).operands "X30" = true →
      (disasm_arm64 flag bytes address).is_function_end = true) ∧
    (flag = false →
      (disasm_arm64 flag bytes address).is_function_start = false ∧
      ((disasm_arm64 flag bytes address).is_function_end = true →
       (disasm_arm64 flag bytes address).mnemonic = "RET")) := by
  rcases disasm_arm64_cases flag bytes address with ⟨hf, hE⟩ | ⟨hOK, hD⟩
  · rw [hE]
    refine ⟨?_, ?_, ?_, ?_⟩
    · intro h; rw [(fmov_facts bytes address).1] at h; exact absurd h (by decide)
    · intro hfl h; rw [(fmov_facts bytes address).1] at h; exact absurd h (by decide)
    · intro hfl h; rw [(fmov_facts bytes address).1] at h; exact absurd h (by decide)
    · intro hfl
      refine ⟨(fmov_facts bytes address).2.2.2.1, ?_⟩
      intro h
      exact absurd ((fmov_facts bytes address).2.2.2.2.symm.trans h) (by decide)
  · rw [hD]
    refine ⟨?_, ?_, ?_, ?_⟩
    · intro hret
      rw [finish_fun_end, arm64_is_epilogue, if_pos hret]
    · intro hfl hstp h29 h30 hneg
      subst hfl
      rw [finish_fun_start, arm64_is_prologue, hstp, h29, h30, hneg]
      decide
    · intro hfl hldp h29 h30
      subst hfl
      rw [finish_fun_end, arm64_is_epilogue, if_neg (by rw [hldp]; decide),
          hldp, h29, h30]
      decide
    · intro hfl
      subst hfl
      constructor
      · rw [finish_fun_start, arm64_is_prologue]
        rfl
      · intro hend
        by_cases hm :
          (arm64_finish false bytes
            (arm64_fallback bytes (arm64_cascade bytes address)).1).mnemonic = "RET"
        · exact hm
        · rw [finish_fun_end, arm64_is_epilogue, if_neg hm] at hend
          simp at hend

lemma finish_mnemonic_rev (flag : Bool) (bytes : Nat) (r : DisassembledInstruction)
    (X : String) (hX1 : X ≠ "MOV") (hX2 : X ≠ ".word")
    (h : (arm64_finish flag bytes r).mnemonic = X) : r.mnemonic = X := by
  cases hv : r.is_valid with
  | true =>
    rcases (finish_mnemonic_cases flag bytes r).1 hv with hm | ⟨-, hm⟩
    · exact hm.symm.trans h
    · exact absurd (hm.symm.trans h).symm hX1
  | false =>
    obtain ⟨hm, -, -⟩ := (finish_mnemonic_cases flag bytes r).2 hv
    exact absurd (hm.symm.trans h).symm hX2

/-- C4: every word decoded as BL or BLR has bit 30 of regs_written set;
every word decoded as RET has branch_type return and is_function_end true;
concretely 0x94000003 at 0x1000 is BL 0x100C, a call, writing X30. -/
theorem c4_bl_blr_ret (flag : Bool) (bytes address : Nat) :
    (((disasm_arm64 flag bytes address).mnemonic = "BL" ∨
      (disasm_arm64 flag bytes address).mnemonic = "BLR") →
      Nat.testBit (disasm_arm64 flag bytes address).regs_written 30 = true) ∧
    ((disasm_arm64 flag bytes address).mnemonic = "RET" →
      (disasm_arm64 flag bytes address).branch_type = .BRANCH_RETURN ∧
      (disasm_arm64 flag bytes address).is_function_end = true) ∧
    ((disasm_arm64 true 0x94000003 0x1000).mnemonic = "BL" ∧
     (disasm_arm64 true 0x94000003 0x1000).branch_target = 0x100C ∧
     (disasm_arm64 true 0x94000003 0x1000).branch_type = .BRANCH_CALL ∧
     Nat.testBit (disasm_arm64 true 0x94000003 0x1000).regs_written 30 = true) := by
  refine ⟨?_, ?_, by decide⟩ <;>
    rcases disasm_arm64_cases flag bytes address with ⟨hf, hE⟩ | ⟨hOK, hD⟩
  · rw [hE]
    intro h
    rcases h with h | h <;>
      (rw [(fmov_facts bytes address).1] at h; exact absurd h (by decide))
  · rw [hD]
    intro h
    have hr : (arm64_fallback bytes (arm64_cascade bytes address)).1.mnemonic = "BL" ∨
        (arm64_fallback bytes (arm64_cascade bytes address)).1.mnemonic = "BLR" := by
      rcases h with h | h
      · exact Or.inl (finish_mnemonic_rev flag bytes _ "BL" (by decide) (by decide) h)
      · exact Or.inr (finish_mnemonic_rev flag bytes _ "BLR" (by decide) (by decide) h)
    rw [(finish_fields flag bytes _).1]
    exact hOK.1 hr
  · rw [hE]
    intro h
    rw [(fmov_facts bytes address).1] at h
    exact absurd h (by decide)
  · rw [hD]
    intro h
    refine ⟨?_, ?_⟩
    · rw [(finish_fields flag bytes _).2.1]
      exact hOK.2.1 (finish_mnemonic_rev flag bytes _ "RET" (by decide) (by decide) h)
    · rw [finish_fun_end, arm64_is_epilogue, if_pos h]

theorem c4_bl_blr_ret_witness :
    Nat.testBit (disasm_arm64 true 0x94000003 0x1000).regs_written 30 = true ∧
    (disasm_arm64 true 0xD65F03C0 0x2000).branch_type = .BRANCH_RETURN ∧
    (disasm_arm64 true 0xD65F03C0 0x2000).is_function_end = true :=
  ⟨(c4_bl_blr_ret true 0x94000003 0x1000).1 (Or.inl (by decide)),
   ((c4_bl_blr_ret true 0xD65F03C0 0x2000).2.1 (by decide)).1,
   ((c4_bl_blr_ret true 0xD65F03C0 0x2000).2.1 (by decide)).2⟩
lemma x86_no_bt (address : Nat) (r : DisassembledInstruction)
    (h : r.has_branch_target = false) :
    r.has_branch_target = true → r.branch_offset ≠ 0 →
    r.branch_target =
      u64 ((address : Int) + (r.length : Int) + r.branch_offset) :=
  fun h1 _ => absurd (h.symm.trans h1) (by decide)

lemma x86_no_off (address : Nat) (r : DisassembledInstruction)
    (h : r.branch_offset = 0) :
    r.has_branch_target = true → r.branch_offset ≠ 0 →
    r.branch_target =
      u64 ((address : Int) + (r.length : Int) + r.branch_offset) :=
  fun _ h2 => absurd h h2

lemma x86_core_target (rd : Nat → Nat) (address : Nat) (has_rex : Bool)
    (rex opcode pos : Nat) :
    (disasm_x86_64_core rd address has_rex rex opcode pos).has_branch_target = true →
    (disasm_x86_64_core rd address has_rex rex opcode pos).branch_offset ≠ 0 →
    (disasm_x86_64_core rd address has_rex rex opcode pos).branch_target =
      u64 ((address : Int) +
           ((disasm_x86_64_core rd address has_rex rex opcode pos).length : Int) +
           (disasm_x86_64_core rd address has_rex rex opcode pos).branch_offset) := by
  have key : ∀ r, r = disasm_x86_64_core rd address has_rex rex opcode pos →
      r.has_branch_target = true → r.branch_offset ≠ 0 →
      r.branch_target = u64 ((address : Int) + (r.length : Int) + r.branch_offset) := by
    intro r hr
    rw [disasm_x86_64_core] at hr
    try dsimp only [] at hr
    by_cases hc1 : opcode = 0xC3
    · rw [if_pos hc1] at hr; subst hr; exact x86_no_bt address _ rfl
    rw [if_neg hc1] at hr
    by_cases hc2 : opcode = 0xCB
    · rw [if_pos hc2] at hr; subst hr; exact x86_no_bt address _ rfl
    rw [if_neg hc2] at hr
    by_cases hc3 : opcode = 0xC2
    · rw [if_pos hc3] at hr
      try dsimp only [] at hr
      by_cases hi3 : pos + 2 ≤ 15
      · rw [if_pos hi3] at hr; subst hr; exact x86_no_bt address _ rfl
      · rw [if_neg hi3] at hr; subst hr; exact x86_no_bt address _ rfl
    rw [if_neg hc3] at hr
    by_cases hc4 : opcode = 0x90
    · rw [if_pos hc4] at hr; subst hr; exact x86_no_bt address _ rfl
    rw [if_neg hc4] at hr
    by_cases hc5 : opcode = 0xCC
    · rw [if_pos hc5] at hr; subst hr; exact x86_no_bt address _ rfl
    rw [if_neg hc5] at hr
    by_cases hc6 : opcode = 0xF4
    · rw [if_pos hc6] at hr; subst hr; exact x86_no_bt address _ rfl
    rw [if_neg hc6] at hr
    by_cases hc7 : opcode = 0xC9
    · rw [if_pos hc7] at hr; subst hr; exact x86_no_bt address _ rfl
    rw [if_neg hc7] at hr
    by_cases hc8 : opcode = 0x9C
    · rw [if_pos hc8] at hr; subst hr; exact x86_no_bt address _ rfl
    rw [if_neg hc8] at hr
    by_cases hc9 : opcode = 0x9D
    · rw [if_pos hc9] at hr; subst hr; exact x86_no_bt address _ rfl
    rw [if_neg hc9] at hr
    by_cases hc10 : opcode = 0x99
    · rw [if_pos hc10] at hr; subst hr; exact x86_no_bt address _ rfl
    rw [if_neg hc10] at hr
    by_cases hc11 : opcode = 0xF5
    · rw [if_pos hc11] at hr; subst hr; exact x86_no_bt address _ rfl
    rw [if_neg hc11] at hr
    by_cases hc12 : opcode = 0xF8
    · rw [if_pos hc12] at hr; subst hr; exact x86_no_bt address _ rfl
    rw [if_neg hc12] at hr
    by_cases hc13 : opcode = 0xF9
    · rw [if_pos hc13] at hr; subst hr; exact x86_no_bt address _ rfl
    rw [if_neg hc13] at hr
    by_cases hc14 : 0x50 ≤ opcode ∧ opcode ≤ 0x57
    · rw [if_pos hc14] at hr; subst hr; exact x86_no_bt address _ rfl
    rw [if_neg hc14] at hr
    by_cases hc15 : 0x58 ≤ opcode ∧ opcode ≤ 0x5F
    · rw [if_pos hc15] at hr; subst hr; exact x86_no_bt address _ rfl
    rw [if_neg hc15] at hr
    by_cases hc16 : opcode = 0xE9
    · rw [if_pos hc16] at hr
      try dsimp only [] at hr
      by_cases hi16 : pos + 4 ≤ 15
      · rw [if_pos hi16] at hr; subst hr; exact x86_no_off address _ rfl
      · rw [if_neg hi16] at hr; subst hr; exact x86_no_bt address _ rfl
    rw [if_neg hc16] at hr
    by_cases hc17 : opcode = 0xEB
    · rw [if_pos hc17] at hr
      try dsimp only [] at hr
      by_cases hi17 : pos < 15
      · rw [if_pos hi17] at hr; subst hr; exact x86_no_off address _ rfl
      · rw [if_neg hi17] at hr; subst hr; exact x86_no_bt address _ rfl
    rw [if_neg hc17] at hr
    by_cases hc18 : opcode = 0xE8
    · rw [if_pos hc18] at hr
      try dsimp only [] at hr
      by_cases hi18 : pos + 4 ≤ 15
      · rw [if_pos hi18] at hr; subst hr; exact x86_no_off address _ rfl
      · rw [if_neg hi18] at hr; subst hr; exact x86_no_bt address _ rfl
    rw [if_neg hc18] at hr
    by_cases hc19 : 0x70 ≤ opcode ∧ opcode ≤ 0x7F
    · rw [if_pos hc19] at hr
      try dsimp only [] at hr
      by_cases hi19 : pos < 15
      · rw [if_pos hi19] at hr; subst hr
        intro _ _
        dsimp only []
        congr 1
        try push_cast
        try ring
      · rw [if_neg hi19] at hr; subst hr; exact x86_no_bt address _ rfl
    rw [if_neg hc19] at hr
    by_cases hc20 : opcode = 0x0F ∧ (1 : Nat) < 15
    · rw [if_pos hc20] at hr
      try dsimp only [] at hr
      by_cases hi20a : 0x80 ≤ rd 1 ∧ rd 1 ≤ 0x8F
      · rw [if_pos hi20a] at hr; subst hr; exact x86_no_off address _ rfl
      rw [if_neg hi20a] at hr
      by_cases hi20b : 0x90 ≤ rd 1 ∧ rd 1 ≤ 0x9F
      · rw [if_pos hi20b] at hr; subst hr; exact x86_no_bt address _ rfl
      rw [if_neg hi20b] at hr
      by_cases hi20c : rd 1 = 0x0B
      · rw [if_pos hi20c] at hr; subst hr; exact x86_no_bt address _ rfl
      · rw [if_neg hi20c] at hr; subst hr; exact x86_no_bt address _ rfl
    rw [if_neg hc20] at hr
    by_cases hc21 : 0xB8 ≤ opcode ∧ opcode ≤ 0xBF
    · rw [if_pos hc21] at hr; subst hr; exact x86_no_bt address _ rfl
    rw [if_neg hc21] at hr
    by_cases hc22 : opcode = 0xCD
    · rw [if_pos hc22] at hr; subst hr; exact x86_no_bt address _ rfl
    rw [if_neg hc22] at hr
    by_cases hc23 : opcode = 0xC9
    · rw [if_pos hc23] at hr; subst hr; exact x86_no_bt address _ rfl
    · rw [if_neg hc23] at hr; subst hr; exact x86_no_bt address _ rfl
  exact key _ rfl

lemma x86_target_offset (bs : Nat → Nat) (address : Nat) :
    (disasm_x86_64 bs address).has_branch_target = true →
    (disasm_x86_64 bs address).branch_offset ≠ 0 →
    (disasm_x86_64 bs address).branch_target =
      u64 ((address : Int) + ((disasm_x86_64 bs address).length : Int) +
           (disasm_x86_64 bs address).branch_offset) := by
  intro h1 h2
  exact x86_core_target (fun i => bs i % 256) address _ _ _ _ h1 h2

/-- Byte stream of the two-byte x86-64 instruction `70 10` (JO +0x10). -/
def x86JccBytes : Nat → Nat :=
  fun i => if i = 0 then 0x70 else if i = 1 then 0x10 else 0

/-- C1 (amended): for arm64 records with a branch target the relation
`branch_target = address + branch_offset` holds for every mnemonic except
ADRP, whose target is page-based; for x86-64 records with a branch target
and non-zero branch_offset the target is `address + length + branch_offset`. -/
theorem c1_branch_target_amended (flag : Bool) (bytes address : Nat)
    (bs : Nat → Nat) (addr2 : Nat) :
    ((disasm_arm64 flag bytes address).has_branch_target = true →
      (disasm_arm64 flag bytes address).mnemonic ≠ "ADRP" →
      (disasm_arm64 flag bytes address).branch_target =
        u64 ((address : Int) + (disasm_arm64 flag bytes address).branch_offset)) ∧
    ((disasm_arm64 flag bytes address).has_branch_target = true →
      (disasm_arm64 flag bytes address).mnemonic = "ADRP" →
      (disasm_arm64 flag bytes address).branch_target =
        u64 (((address &&& 0xFFFFFFFFFFFFF000 : Nat) : Int) +
             (disasm_arm64 flag bytes address).branch_offset)) ∧
    ((disasm_x86_64 bs addr2).has_branch_target = true →
      (disasm_x86_64 bs addr2).branch_offset ≠ 0 →
      (disasm_x86_64 bs addr2).branch_target =
        u64 ((addr2 : Int) + ((disasm_x86_64 bs addr2).length : Int) +
             (disasm_x86_64 bs addr2).branch_offset)) := by
  refine ⟨?_, ?_, x86_target_offset bs addr2⟩ <;>
    rcases disasm_arm64_cases flag bytes address with ⟨hf, hE⟩ | ⟨hOK, hD⟩
  · rw [hE]
    intro h
    rw [(fmov_facts bytes address).2.2.1] at h
    exact absurd h (by decide)
  · rw [hD]
    intro h hnA
    have hbt : (arm64_fallback bytes
        (arm64_cascade bytes address)).1.has_branch_target = true := by
      rw [← (finish_fields flag bytes _).2.2.2.2.1]; exact h
    have hval := (hOK.2.2.2.1 hbt).1
    have hnA2 : (arm64_fallback bytes
        (arm64_cascade bytes address)).1.mnemonic ≠ "ADRP" := by
      intro hA
      rcases (finish_mnemonic_cases flag bytes _).1 hval with hm | ⟨ho, -⟩
      · exact hnA (hm.trans hA)
      · rw [ho] at hA; exact absurd hA (by decide)
    rw [(finish_fields flag bytes _).2.2.1, (finish_fields flag bytes _).2.2.2.1]
    exact hOK.2.2.2.2.2.1 hbt hnA2
  · rw [hE]
    intro h
    rw [(fmov_facts bytes address).2.2.1] at h
    exact absurd h (by decide)
  · rw [hD]
    intro h hA
    have hbt : (arm64_fallback bytes
        (arm64_cascade bytes address)).1.has_branch_target = true := by
      rw [← (finish_fields flag bytes _).2.2.2.2.1]; exact h
    rw [(finish_fields flag bytes _).2.2.1, (finish_fields flag bytes _).2.2.2.1]
    exact hOK.2.2.2.2.1 hbt
      (finish_mnemonic_rev flag bytes _ "ADRP" (by decide) (by decide) hA)

/-- C1 counterexample: the ADRP word 0xB0000000 at the non-page-aligned
address 0x1004 has branch_offset 0x1000 but branch_target 0x2000, not
0x1004 + 0x1000; the x86-64 JO rel8 instruction `70 10` at 0x1000 has
branch_offset 0x10 but branch_target 0x1012, not 0x1000 + 0x10. -/
theorem c1_branch_target_cex :
    ((disasm_arm64 true 0xB0000000 0x1004).has_branch_target = true ∧
     (disasm_arm64 true 0xB0000000 0x1004).branch_offset ≠ 0 ∧
     (disasm_arm64 true 0xB0000000 0x1004).branch_target ≠
       u64 ((0x1004 : Int) + (disasm_arm64 true 0xB0000000 0x1004).branch_offset)) ∧
    ((disasm_x86_64 x86JccBytes 0x1000).has_branch_target = true ∧
     (disasm_x86_64 x86JccBytes 0x1000).branch_offset ≠ 0 ∧
     (disasm_x86_64 x86JccBytes 0x1000).branch_target ≠
       u64 ((0x1000 : Int) + (disasm_x86_64 x86JccBytes 0x1000).branch_offset)) := by
  exact ⟨⟨by decide, by decide, by decide⟩, ⟨by decide, by decide, by decide⟩⟩

theorem c1_branch_target_amended_witness :
    (disasm_arm64 true 0x94000003 0x1000).branch_target =
      u64 ((0x1000 : Int) + (disasm_arm64 true 0x94000003 0x1000).branch_offset) ∧
    (disasm_arm64 true 0xB0000000 0x1004).branch_target =
      u64 (((0x1004 &&& 0xFFFFFFFFFFFFF000 : Nat) : Int) +
           (disasm_arm64 true 0xB0000000 0x1004).branch_offset) ∧
    (disasm_x86_64 x86JccBytes 0x1000).branch_target =
      u64 ((0x1000 : Int) + ((disasm_x86_64 x86JccBytes 0x1000).length : Int) +
           (disasm_x86_64 x86JccBytes 0x1000).branch_offset) :=
  ⟨(c1_branch_target_amended true 0x94000003 0x1000 x86JccBytes 0x1000).1
      (by decide) (by decide),
   (c1_branch_target_amended true 0xB0000000 0x1004 x86JccBytes 0x1000).2.1
      (by decide) (by decide),
   (c1_branch_target_amended true 0x94000003 0x1000 x86JccBytes 0x1000).2.2
      (by decide) (by decide)⟩

/-- C3: the word 0xF100001F is the architectural CMP-immediate encoding
`CMP X0, #0` (`SUBS XZR, X0, #0`), yet the decoder reports mnemonic SUB
with flags_written = 0, because the ADD/SUB-immediate arm of the cascade
captures every word with bit 28 set before the CMP arm is reached and
derives its S bit from word bit 20 instead of bit 29. -/
theorem c3_cmp_flags_bug :
    (0xF100001F : Nat) >>> 24 &&& 0xFF = 0xF1 ∧
    (disasm_arm64 true 0xF100001F 0x1000).mnemonic = "SUB" ∧
    (disasm_arm64 true 0xF100001F 0x1000).flags_written = 0 ∧
    (disasm_arm64 true 0xF100001F 0x1000).flags_written ≠ 0xF := by
  exact ⟨by decide, by decide, by decide, by decide⟩

theorem c2_decoder_total_witness :
    (disasm_arm64 true 0 0x40).is_valid = true ∧
    (disasm_arm64 true 0 0x40).mnemonic ≠ "" ∧
    ((disasm_arm64 true 0 0x40).mnemonic = ".word" ∧
     (disasm_arm64 true 0 0x40).operands = "0x" ++ hexUpper8 0 ∧
     (disasm_arm64 true 0 0x40).category = .INST_CATEGORY_UNKNOWN) :=
  ⟨(c2_decoder_total true 0 0x40).1, (c2_decoder_total true 0 0x40).2.1,
   (c2_decoder_total true 0 0x40).2.2 (by decide)⟩

theorem c5_prologue_epilogue_witness :
    (disasm_arm64 true 0xD65F03C0 0x3000).is_function_end = true ∧
    (disasm_arm64 true 0xA9BF7BFD 0x2000).is_function_start = true ∧
    (disasm_arm64 true 0xA8C17BFD 0x2000).is_function_end = true ∧
    (disasm_arm64 false 0xD65F03C0 0x10).is_function_start = false ∧
    (disasm_arm64 false 0xD65F03C0 0x10).mnemonic = "RET" :=
  ⟨(c5_prologue_epilogue true 0xD65F03C0 0x3000).1 (by decide),
   (c5_prologue_epilogue true 0xA9BF7BFD 0x2000).2.1 rfl (by decide) (by decide)
     (by decide) (by decide),
   (c5_prologue_epilogue true 0xA8C17BFD 0x2000).2.2.1 rfl (by decide) (by decide)
     (by decide),
   ((c5_prologue_epilogue false 0xD65F03C0 0x10).2.2.2 rfl).1,
   ((c5_prologue_epilogue false 0xD65F03C0 0x10).2.2.2 rfl).2 (by decide)⟩

/-! ## Theorems: the scanner and type-reconstruction claims -/

/-- The uniqueness key of the class vector. -/
def ClassKeyDistinct (a b : class_dump_info_t) : Prop := a.className ≠ b.className

/-- The uniqueness key of the category vector: the (class, category) pair. -/
def CatKeyDistinct (a b : category_dump_info_t) : Prop :=
  ¬(a.className = b.className ∧ a.categoryName = b.categoryName)

/-- The uniqueness key of the protocol vector. -/
def ProtoKeyDistinct (a b : protocol_dump_info_t) : Prop :=
  a.protocolName ≠ b.protocolName

/-- The de-duplication invariant of `class_dump_result_t`. -/
def ClassDumpInv (r : class_dump_result_t) : Prop :=
  r.classes.Pairwise ClassKeyDistinct ∧
  r.categories.Pairwise CatKeyDistinct ∧
  r.protocols.Pairwise ProtoKeyDistinct

lemma mem_updateFirst {α : Type} (p : α → Bool) (f : α → α) :
    ∀ {l : List α} {y : α}, y ∈ updateFirst p f l → y ∈ l ∨ ∃ z, z ∈ l ∧ y = f z := by
  intro l
  induction l with
  | nil => intro y h; rw [updateFirst] at h; exact absurd h (List.not_mem_nil y)
  | cons x xs ih =>
    intro y h
    rw [updateFirst] at h
    split at h
    · rcases List.mem_cons.mp h with h | h
      · exact Or.inr ⟨x, List.mem_cons_self x xs, h⟩
      · exact Or.inl (List.mem_cons_of_mem _ h)
    · rcases List.mem_cons.mp h with h | h
      · exact Or.inl (h ▸ List.mem_cons_self x xs)
      · rcases ih h with h | ⟨z, hz, he⟩
        · exact Or.inl (List.mem_cons_of_mem _ h)
        · exact Or.inr ⟨z, List.mem_cons_of_mem _ hz, he⟩

lemma updateFirst_pairwise {α : Type} {R : α → α → Prop} (p : α → Bool) (f : α → α)
    (hf1 : ∀ x y, R x y → R x (f y)) (hf2 : ∀ x y, R x y → R (f x) y) :
    ∀ l : List α, l.Pairwise R → (updateFirst p f l).Pairwise R := by
  intro l
  induction l with
  | nil => intro h; rw [updateFirst]; exact h
  | cons x xs ih =>
    intro h
    rcases List.pairwise_cons.mp h with ⟨hx, hxs⟩
    rw [updateFirst]
    split
    · exact List.pairwise_cons.mpr ⟨fun y hy => hf2 x y (hx y hy), hxs⟩
    · refine List.pairwise_cons.mpr ⟨?_, ih hxs⟩
      intro y hy
      rcases mem_updateFirst p f hy with h2 | ⟨z, hz, he⟩
      · exact hx y h2
      · exact he ▸ hf1 x z (hx z hz)

lemma pairwise_append_one {α : Type} {R : α → α → Prop} {l : List α} {x : α}
    (h : l.Pairwise R) (hx : ∀ a ∈ l, R a x) : (l ++ [x]).Pairwise R := by
  rw [List.pairwise_append]
  refine ⟨h, List.pairwise_singleton R x, ?_⟩
  intro a ha b hb
  rw [List.mem_singleton] at hb
  exact hb ▸ hx a ha

lemma add_class_inv (r : class_dump_result_t) (n : String) (h : ClassDumpInv r) :
    ClassDumpInv (add_class_to_result r n) := by
  rw [add_class_to_result]
  split
  · exact h
  · next hn =>
    refine ⟨?_, h.2.1, h.2.2⟩
    refine pairwise_append_one h.1 ?_
    intro a ha he
    apply hn
    rw [class_dump_find_class, List.find?_isSome]
    exact ⟨a, ha, by rw [he]; exact beq_self_eq_true _⟩

lemma add_category_inv (r : class_dump_result_t) (g : String) (h : ClassDumpInv r) :
    ClassDumpInv (add_category_to_result r g) := by
  rw [add_category_to_result]
  split
  · exact h
  · next hn =>
    refine ⟨h.1, ?_, h.2.2⟩
    refine pairwise_append_one h.2.1 ?_
    intro a ha hpair
    obtain ⟨-, he⟩ := hpair
    apply hn
    rw [List.any_eq_true]
    exact ⟨a, ha, by rw [he]; exact beq_self_eq_true _⟩

lemma add_protocol_inv (r : class_dump_result_t) (n : String) (h : ClassDumpInv r) :
    ClassDumpInv (add_protocol_to_result r n) := by
  rw [add_protocol_to_result]
  split
  · exact h
  · next hn =>
    refine ⟨h.1, h.2.1, ?_⟩
    refine pairwise_append_one h.2.2 ?_
    intro a ha he
    apply hn
    rw [class_dump_find_protocol, List.find?_isSome]
    exact ⟨a, ha, by rw [he]; exact beq_self_eq_true _⟩

lemma add_category_with_class_inv (r : class_dump_result_t) (cn gn : String)
    (h : ClassDumpInv r) : ClassDumpInv (class_dump_add_category_with_class r cn gn) := by
  rw [class_dump_add_category_with_class]
  split
  · exact h
  · next hn =>
    refine ⟨h.1, ?_, h.2.2⟩
    refine pairwise_append_one h.2.1 ?_
    intro a ha hpair
    obtain ⟨he1, he2⟩ := hpair
    apply hn
    rw [class_dump_find_category, List.find?_isSome]
    refine ⟨a, ha, ?_⟩
    rw [he1, he2]
    rw [Bool.and_eq_true]
    exact ⟨beq_self_eq_true _, beq_self_eq_true _⟩

lemma add_method_to_class_inv (r : class_dump_result_t) (n m : String) (b : Bool)
    (h : ClassDumpInv r) : ClassDumpInv (class_dump_add_method_to_class_at r n m b) := by
  rw [class_dump_add_method_to_class_at]
  refine ⟨?_, h.2.1, h.2.2⟩
  refine updateFirst_pairwise _ _ ?_ ?_ _ h.1
  · intro x y hxy
    show x.className ≠ _
    split <;> exact hxy
  · intro x y hxy
    show _ ≠ y.className
    split <;> exact hxy

lemma add_method_to_category_inv (r : class_dump_result_t) (cn gn m : String) (b : Bool)
    (h : ClassDumpInv r) :
    ClassDumpInv (class_dump_add_method_to_category_at r cn gn m b) := by
  rw [class_dump_add_method_to_category_at]
  refine ⟨h.1, ?_, h.2.2⟩
  refine updateFirst_pairwise _ _ ?_ ?_ _ h.2.1
  · intro x y hxy he
    apply hxy
    revert he
    split <;> exact id
  · intro x y hxy he
    apply hxy
    revert he
    split <;> exact id

lemma add_ivar_inv (r : class_dump_result_t) (cn v : String) (h : ClassDumpInv r) :
    ClassDumpInv (class_dump_add_ivar_at r cn v) := by
  rw [class_dump_add_ivar_at]
  refine ⟨?_, h.2.1, h.2.2⟩
  refine updateFirst_pairwise _ _ ?_ ?_ _ h.1
  · intro x y hxy
    show x.className ≠ _
    exact hxy
  · intro x y hxy
    show _ ≠ y.className
    exact hxy

lemma scan_methods_match_inv (c : Char) (start : List Char)
    (r : class_dump_result_t) (h : ClassDumpInv r) :
    ClassDumpInv (class_dump_scan_methods_match c start r) := by
  rw [class_dump_scan_methods_match]
  repeat'
    first
    | exact add_method_to_category_inv _ _ _ _ _
        (add_category_with_class_inv _ _ _ (add_class_inv _ _ h))
    | exact add_method_to_class_inv _ _ _ _ (add_class_inv _ _ h)
    | exact h
    | split
    | (dsimp only [])

lemma analyze_classes_go_inv :
    ∀ (data : List Char) (r : class_dump_result_t), ClassDumpInv r →
      ClassDumpInv (class_dump_analyze_classes_go data r) := by
  intro data
  induction data with
  | nil => intro r h; rw [class_dump_analyze_classes_go]; exact h
  | cons x rest ih =>
    intro r h
    rw [class_dump_analyze_classes_go]
    split
    · exact h
    · apply ih
      split
      · split
        · exact add_class_inv _ _ h
        · exact h
      · exact h

lemma analyze_categories_go_inv :
    ∀ (data : List Char) (r : class_dump_result_t), ClassDumpInv r →
      ClassDumpInv (class_dump_analyze_categories_go data r) := by
  intro data
  induction data with
  | nil => intro r h; rw [class_dump_analyze_categories_go]; exact h
  | cons x rest ih =>
    intro r h
    rw [class_dump_analyze_categories_go]
    split
    · exact h
    · apply ih
      split
      · split
        · split
          · exact add_category_with_class_inv _ _ _ h
          · exact h
        · exact h
      · exact h

lemma analyze_protocols_go_inv :
    ∀ (data : List Char) (r : class_dump_result_t), ClassDumpInv r →
      ClassDumpInv (class_dump_analyze_protocols_go data r) := by
  intro data
  induction data with
  | nil => intro r h; rw [class_dump_analyze_protocols_go]; exact h
  | cons x rest ih =>
    intro r h
    rw [class_dump_analyze_protocols_go]
    split
    · exact h
    · apply ih
      split
      · split
        · exact add_protocol_inv _ _ h
        · exact h
      · exact h

lemma scan_ivars_go_inv :
    ∀ (data : List Char) (r : class_dump_result_t), ClassDumpInv r →
      ClassDumpInv (class_dump_scan_ivars_go data r) := by
  intro data
  induction data with
  | nil => intro r h; rw [class_dump_scan_ivars_go]; exact h
  | cons x rest ih =>
    intro r h
    rw [class_dump_scan_ivars_go]
    split
    · exact h
    · apply ih
      split
      · split
        · split
          · split
            · exact add_ivar_inv _ _ _ (add_class_inv _ _ h)
            · exact h
          · exact h
        · exact h
      · exact h

lemma scan_methods_go_inv :
    ∀ (data : List Char) (r : class_dump_result_t), ClassDumpInv r →
      ClassDumpInv (class_dump_scan_methods_go data r) := by
  intro data
  induction data with
  | nil => intro r h; rw [class_dump_scan_methods_go]; exact h
  | cons x rest ih =>
    intro r h
    rw [class_dump_scan_methods_go]
    split
    · exact h
    · apply ih
      split
      · exact scan_methods_match_inv _ _ _ h
      · exact h

lemma analyze_strings_inv (data : List Char) (r : class_dump_result_t)
    (h : ClassDumpInv r) : ClassDumpInv (analyze_strings_for_objc data r) := by
  rw [analyze_strings_for_objc]
  split
  · exact add_protocol_inv _ _ (add_category_inv _ _ (add_class_inv _ _ h))
  · exact h

/-- C6: after all scan passes no two classes share a className, no two
categories share the (className, categoryName) pair and no two protocols
share a protocolName; every insertion operation preserves the invariant. -/
theorem c6_dedup_invariant (data : List Char) :
    ClassDumpInv (class_dump_binary data) ∧
    (∀ r n, ClassDumpInv r → ClassDumpInv (add_class_to_result r n)) ∧
    (∀ r g, ClassDumpInv r → ClassDumpInv (add_category_to_result r g)) ∧
    (∀ r n, ClassDumpInv r → ClassDumpInv (add_protocol_to_result r n)) ∧
    (∀ r cn gn, ClassDumpInv r →
      ClassDumpInv (class_dump_add_category_with_class r cn gn)) ∧
    (∀ r n m b, ClassDumpInv r →
      ClassDumpInv (class_dump_add_method_to_class_at r n m b)) ∧
    (∀ r cn gn m b, ClassDumpInv r →
      ClassDumpInv (class_dump_add_method_to_category_at r cn gn m b)) ∧
    (∀ r cn v, ClassDumpInv r → ClassDumpInv (class_dump_add_ivar_at r cn v)) := by
  refine ⟨?_, fun r n => add_class_inv r n, fun r g => add_category_inv r g,
    fun r n => add_protocol_inv r n, fun r cn gn => add_category_with_class_inv r cn gn,
    fun r n m b => add_method_to_class_inv r n m b,
    fun r cn gn m b => add_method_to_category_inv r cn gn m b,
    fun r cn v => add_ivar_inv r cn v⟩
  have h0 : ClassDumpInv { classes := [], categories := [], protocols := [] } :=
    ⟨List.Pairwise.nil, List.Pairwise.nil, List.Pairwise.nil⟩
  rw [class_dump_binary]
  split
  · exact analyze_strings_inv _ _ (scan_methods_go_inv _ _ (scan_ivars_go_inv _ _
      (analyze_protocols_go_inv _ _ (analyze_categories_go_inv _ _
        (analyze_classes_go_inv _ _ h0)))))
  · exact scan_methods_go_inv _ _ (scan_ivars_go_inv _ _
      (analyze_protocols_go_inv _ _ (analyze_categories_go_inv _ _
        (analyze_classes_go_inv _ _ h0))))

theorem c6_dedup_invariant_witness :
    ClassDumpInv (class_dump_binary []) ∧
    ClassDumpInv (add_class_to_result
      { classes := [], categories := [], protocols := [] } "Foo") :=
  ⟨(c6_dedup_invariant []).1,
   (c6_dedup_invariant []).2.1 { classes := [], categories := [], protocols := [] } "Foo"
     ⟨List.Pairwise.nil, List.Pairwise.nil, List.Pairwise.nil⟩⟩

set_option maxRecDepth 100000 in
/-- C7: a binary containing exactly the four byte sequences of scenario S6
yields one class Foo (superclass NSObject) with ivar counter and instance
method tick, and one category Bar on Foo. -/
theorem c7_runtime_scan :
    class_dump_binary c7data =
      { classes := [{ className := "Foo", superclassName := "NSObject",
                      isSwift := false, isMetaClass := false,
                      protocols := [], instanceMethods := ["tick"],
                      classMethods := [], properties := [], ivars := ["counter"] }],
        categories := [{ categoryName := "Bar", className := "Foo",
                         protocols := [], instanceMethods := [],
                         classMethods := [], properties := [] }],
        protocols := [] } := by decide

lemma strndupLen_take : ∀ (s : List Char) (m : Nat),
    s.take (strndupLen s m) = (s.takeWhile (fun c => !isStopChar c)).take m := by
  intro s
  induction s with
  | nil => intro m; cases m <;> rfl
  | cons c cs ih =>
    intro m
    cases m with
    | zero => rfl
    | succ m =>
      rw [strndupLen]
      by_cases hc : isStopChar c
      · rw [if_pos hc, List.takeWhile_cons]
        rw [hc]
        rfl
      · rw [if_neg hc]
        rw [Bool.not_eq_true] at hc
        simp only [List.takeWhile_cons, hc, Bool.not_false, if_true]
        rw [Nat.add_comm 1 (strndupLen cs m), List.take_succ_cons, ih,
            List.take_succ_cons]

lemma strndupLen_nil (m : Nat) : strndupLen [] m = 0 := by
  cases m <;> rfl

/-- C8 (amended): a successful tail extraction returns exactly the
characters up to the first NUL, CR or LF, truncated only by the remaining
buffer size; there is no 255-character bound in the code. -/
theorem c8_tail_extraction (s : List Char) (m : Nat) (t : List Char)
    (h : class_dump_safe_strndup s m = some t) :
    t = (s.takeWhile (fun c => !isStopChar c)).take m ∧ t ≠ [] := by
  rw [class_dump_safe_strndup] at h
  split at h
  · exact absurd h (by simp)
  · try dsimp only [] at h
    split at h
    · exact absurd h (by simp)
    · next hm hlen =>
      have ht : t = s.take (strndupLen s m) := (Option.some.inj h).symm
      refine ⟨ht.trans (strndupLen_take s m), ?_⟩
      rw [ht]
      intro hnil
      rcases List.take_eq_nil_iff.mp hnil with h0 | h0
      · exact hlen h0
      · rw [h0, strndupLen_nil] at hlen
        exact hlen rfl

theorem c8_tail_extraction_witness :
    "Foo".toList =
      ((("Foo".toList ++ Char.ofNat 0 :: ['X']).takeWhile
        (fun c => !isStopChar c)).take 5) ∧ "Foo".toList ≠ [] :=
  c8_tail_extraction ("Foo".toList ++ Char.ofNat 0 :: ['X']) 5 "Foo".toList (by decide)

set_option maxRecDepth 100000 in
/-- C8 counterexample: a 256-character tail is extracted whole, so the
claimed 255-character cap does not exist; the class scan then stores a
256-character class name. -/
theorem c8_tail_bound_cex :
    (class_dump_safe_strndup (List.replicate 256 'A') 256).map List.length =
      some 256 ∧
    ((class_dump_analyze_classes
        (objcClassPat ++ List.replicate 256 'A' ++ [Char.ofNat 0])
        { classes := [], categories := [], protocols := [] }).classes.map
      (fun c => c.className.length)) = [256] := by
  exact ⟨by decide, by decide⟩

/-- C9: a bracketed method match with no space before the closing bracket,
or with an empty selector after the space, is skipped and the result is
returned unchanged. -/
theorem c9_method_skip (c : Char) (start : List Char) (r : class_dump_result_t) :
    (breakAt ']' (start.take (min start.length 200)) = none →
      class_dump_scan_methods_match c start r = r) ∧
    (∀ pre post content,
      breakAt ']' (start.take (min start.length 200)) = some (pre, post) →
      class_dump_safe_strndup start pre.length = some content →
      breakAt ' ' content = none →
      class_dump_scan_methods_match c start r = r) ∧
    (∀ pre post content cls,
      breakAt ']' (start.take (min start.length 200)) = some (pre, post) →
      class_dump_safe_strndup start pre.length = some content →
      breakAt ' ' content = some (cls, []) →
      class_dump_scan_methods_match c start r = r) := by
  refine ⟨?_, ?_, ?_⟩
  · intro hb
    rw [class_dump_scan_methods_match]
    try dsimp only []
    rw [hb]
  · intro pre post content hb hs hsp
    rw [class_dump_scan_methods_match]
    try dsimp only []
    rw [hb]
    try dsimp only []
    split
    · rfl
    · rw [hs]
      try dsimp only []
      rw [hsp]
  · intro pre post content cls hb hs hsp
    rw [class_dump_scan_methods_match]
    try dsimp only []
    rw [hb]
    try dsimp only []
    split
    · rfl
    · rw [hs]
      try dsimp only []
      rw [hsp]
      try dsimp only []
      rw [if_pos rfl]

theorem c9_method_skip_witness :
    class_dump_scan_methods_match '-' "Foo]x".toList
      { classes := [], categories := [], protocols := [] } =
      { classes := [], categories := [], protocols := [] } ∧
    class_dump_scan_methods_match '-' "Foo ]".toList
      { classes := [], categories := [], protocols := [] } =
      { classes := [], categories := [], protocols := [] } ∧
    class_dump_scan_methods_match '+' "xyz".toList
      { classes := [], categories := [], protocols := [] } =
      { classes := [], categories := [], protocols := [] } :=
  ⟨(c9_method_skip '-' "Foo]x".toList _).2.1 "Foo".toList "x".toList "Foo".toList
      (by decide) (by decide) (by decide),
   (c9_method_skip '-' "Foo ]".toList _).2.2 "Foo ".toList [] "Foo ".toList "Foo".toList
      (by decide) (by decide) (by decide),
   (c9_method_skip '+' "xyz".toList _).1 (by decide)⟩

lemma c_reconstruct_step_nodup (acc : List c_reconstructed_type_t) (s : SymbolInfo)
    (h : acc.Pairwise (fun a b => a.name ≠ b.name)) :
    (c_reconstruct_step acc s).Pairwise (fun a b => a.name ≠ b.name) := by
  rw [c_reconstruct_step]
  split
  · exact h
  split
  · exact h
  split
  · exact h
  split
  · exact h
  · next hn =>
    refine pairwise_append_one h ?_
    intro a ha he
    apply hn
    rw [c_reconstruction_has_name, List.any_eq_true]
    exact ⟨a, ha, by rw [he]; exact beq_self_eq_true _⟩

lemma foldl_reconstruct_nodup :
    ∀ (syms : List SymbolInfo) (acc : List c_reconstructed_type_t),
      acc.Pairwise (fun a b => a.name ≠ b.name) →
      (syms.foldl c_reconstruct_step acc).Pairwise (fun a b => a.name ≠ b.name) := by
  intro syms
  induction syms with
  | nil => intro acc h; exact h
  | cons x xs ih =>
    intro acc h
    rw [List.foldl_cons]
    exact ih _ (c_reconstruct_step_nodup acc x h)

/-- C10: the reconstructed type list never holds two entries with the same
name; a symbol whose extracted type name is already present leaves the
accumulator unchanged. -/
theorem c10_type_dedup (syms : List SymbolInfo) :
    (c_reconstruct_types_from_binary syms).Pairwise (fun a b => a.name ≠ b.name) ∧
    (∀ (acc : List c_reconstructed_type_t) (sym : SymbolInfo)
        (cat : c_type_category_t) (tn : String),
      c_symbol_type_name sym.name = (cat, some tn) →
      c_reconstruction_has_name acc tn = true →
      c_reconstruct_step acc sym = acc) := by
  constructor
  · exact foldl_reconstruct_nodup syms [] List.Pairwise.nil
  · intro acc sym cat tn hc hhas
    rw [c_reconstruct_step]
    split
    · rfl
    · rw [hc]
      try dsimp only []
      by_cases htn : tn = ""
      · rw [if_pos htn]
      · rw [if_neg htn, if_pos hhas]

theorem c10_type_dedup_witness :
    c_reconstruct_step
      [{ name := "Foo", address := 0, size := 64,
         category := .C_TYPE_CATEGORY_CLASS, confidence := 9 / 10 }]
      { name := "_OBJC_CLASS_$_Foo", address := 4096 } =
      [{ name := "Foo", address := 0, size := 64,
         category := .C_TYPE_CATEGORY_CLASS, confidence := 9 / 10 }] :=
  (c10_type_dedup []).2 _ _ .C_TYPE_CATEGORY_CLASS "Foo" (by decide) (by decide)

end ReDyne
